import Mathlib

/-!
# Verification of the coilLauncher control loop (src/src/main.cpp)

Shallow embedding of the Arduino sketch `main.cpp`.  One execution of the C
function `loop()` is modelled by `loopStep : Inputs → State → State`, where
`Inputs` carries the value returned by every call to `millis()`,
`digitalRead(...)`, `analogRead(...)` and (debounced) `checkSwitch(...)` that
the iteration performs, in program order, and `State` carries the global
variables of the sketch together with the latched output pins and the lines
written to the serial port.

`millis()` returns `unsigned long` (32 bits on AVR); the sketch only ever uses
clock values through wrap-around subtraction `millis() - t₀`.  We model clock
readings as unreduced `Nat` instants and embed the C subtraction as
`msub a b = (a + (2^32 - b % 2^32)) % 2^32`, which coincides with the C value
`(a mod 2^32) - (b mod 2^32)` (in `unsigned long` arithmetic) whenever `b ≤ a`.

The busy-wait debouncer `checkSwitch` is embedded separately (`csAux`,
`checkSwitch`) as a fuel-indexed recursion over the stream of raw samples read
1 ms apart; `none` models non-termination within the given fuel.
-/

namespace CoilLauncher

/-- 2^32, the modulus of `unsigned long` arithmetic on the target. -/
def M32 : Nat := 4294967296

/-- Embedding of C `unsigned long` subtraction `a - b` (wrap-around). -/
def msub (a b : Nat) : Nat := (a + (M32 - b % M32)) % M32

/-- `REARM_DELAY` (ms): cool-down before re-arming. -/
def REARM_DELAY : Nat := 5000

/-- `FAIL_SAFE_LIMIT` (ms): maximum time the coils may stay energized. -/
def FAIL_SAFE_LIMIT : Nat := 1000

/-- Global `pulseWidth = 30` (ms): how long to fire each coil. -/
def pulseWidth : Nat := 30

/-- `debounceDelay = 20` in `checkSwitch`: required stable polls. -/
def debounceDelay : Nat := 20

/-- Arduino's `map(value, fromLow, fromHigh, toLow, toHigh)` for the
non-negative arguments used by the sketch (integer division truncates). -/
def arduinoMap (x fromLow fromHigh toLow toHigh : Nat) : Nat :=
  (x - fromLow) * (toHigh - toLow) / (fromHigh - fromLow) + toLow

/-- The external readings consumed by one iteration of `loop()`, in program
order.  `tX` fields are the `millis()` readings at each call site; `hallNx`
fields are `digitalRead` results (0 = sled present) at each call site;
`swRearm`/`swFire` are the results of the two (blocking, debounced)
`checkSwitch(LAUNCH_SWITCH)` calls (`true` = HIGH = released). -/
structure Inputs where
  analog : Nat
  tWd : Nat
  hall1a : Nat
  tHall1 : Nat
  hall2a : Nat
  tHall2 : Nat
  tRearm : Nat
  swRearm : Bool
  hall1b : Nat
  hall2b : Nat
  swFire : Bool
  tFire0 : Nat
  hall1c : Nat
  tFire1 : Nat
  tPulse0 : Nat
  tPulse1 : Nat

/-- The global variables of the sketch, the latched digital outputs
(`trigger0`/`trigger1` = TRIGGER0/TRIGGER1 pins, `ledRed`/`ledGreen`/`ledBlue`
= the LED cathode pins), the serial log, and `divZeroHit`, which latches
whenever the velocity computation divides by zero (undefined behaviour of the
C program, instrumented here). -/
structure State where
  coil0TriggerTime : Nat
  coil1TriggerTime : Nat
  hall1TripTime : Nat
  hall2TripTime : Nat
  holdOffDelay : Nat
  readyToLaunch : Bool
  launched : Bool
  coil0Active : Bool
  coil1Active : Bool
  hall1Tripped : Bool
  hall2Tripped : Bool
  trigger0 : Bool
  trigger1 : Bool
  ledRed : Nat
  ledGreen : Nat
  ledBlue : Nat
  out : List String
  divZeroHit : Bool

/-- State after `setup()`: globals zero-initialized except
`readyToLaunch = 1`, trigger outputs LOW, LED green (line 84 writes
red=1, green=0, blue=1).  The startup `millis()` stored in the two trigger
times is taken as instant 0. -/
def initState : State :=
  { coil0TriggerTime := 0
    coil1TriggerTime := 0
    hall1TripTime := 0
    hall2TripTime := 0
    holdOffDelay := 0
    readyToLaunch := true
    launched := false
    coil0Active := false
    coil1Active := false
    hall1Tripped := false
    hall2Tripped := false
    trigger0 := false
    trigger1 := false
    ledRed := 1
    ledGreen := 0
    ledBlue := 1
    out := []
    divZeroHit := false }

/-- `turnLED(color)`: RED=1, BLUE=2, GREEN=3, writing 0 turns a color on. -/
def turnLED (color : Nat) (s : State) : State :=
  if color = 1 then { s with ledRed := 0, ledGreen := 1, ledBlue := 1 }
  else if color = 3 then { s with ledRed := 1, ledGreen := 0, ledBlue := 1 }
  else if color = 2 then { s with ledRed := 1, ledGreen := 1, ledBlue := 0 }
  else { s with ledRed := 1, ledGreen := 1, ledBlue := 1 }

/-- Line 90: `holdOffDelay = map(analogRead(HOLDOFF_DELAY_PIN),0,1023,0,102)`. -/
def holdOffStep (i : Inputs) (s : State) : State :=
  { s with holdOffDelay := arduinoMap i.analog 0 1023 0 102 }

/-- Lines 94-101: fail-safe watchdog. -/
def watchdogStep (i : Inputs) (s : State) : State :=
  if s.launched = true ∧ FAIL_SAFE_LIMIT < msub i.tWd s.coil0TriggerTime then
    { s with
      out := s.out ++ ["Launch taking too long.  Shutting down!"]
      trigger0 := false
      trigger1 := false
      launched := false
      coil0Active := false
      coil1Active := false }
  else s

/-- Lines 104-108: LED indicator. -/
def ledStep (s : State) : State :=
  if s.coil0Active = true ∨ s.coil1Active = true then turnLED 1 s
  else if s.coil0Active = false ∧ s.coil1Active = false ∧ s.readyToLaunch = false then
    turnLED 2 s
  else s

/-- Lines 111-119: hall sensor 1 edge latch. -/
def hall1Step (i : Inputs) (s : State) : State :=
  if s.launched = true ∧ s.hall1Tripped = false ∧ i.hall1a = 0 then
    { s with
      hall1Tripped := true
      hall1TripTime := i.tHall1
      out := s.out ++ ["Hall1 at " ++ toString (msub i.tHall1 s.coil0TriggerTime) ++ " ms"] }
  else s

/-- Lines 121-129: hall sensor 2 edge latch. -/
def hall2Step (i : Inputs) (s : State) : State :=
  if s.launched = true ∧ s.hall2Tripped = false ∧ i.hall2a = 0 then
    { s with
      hall2Tripped := true
      hall2TripTime := i.tHall2
      out := s.out ++ ["Hall2 at " ++ toString (msub i.tHall2 s.coil0TriggerTime) ++ " ms"] }
  else s

/-- Line 136: `hall1SledSpeed = 45000 / (hall1TripTime - coil0TriggerTime)`. -/
def hall1SledSpeed (s : State) : Nat := 45000 / msub s.hall1TripTime s.coil0TriggerTime

/-- Line 140: `hall2SledSpeed = 100000 / (hall2TripTime - hall1TripTime)`. -/
def hall2SledSpeed (s : State) : Nat := 100000 / msub s.hall2TripTime s.hall1TripTime

/-- Lines 133-149: speed report and end of launch.  `divZeroHit` latches the
(unguarded) division-by-zero branch of the two divisions. -/
def velocityStep (s : State) : State :=
  if s.hall1Tripped = true ∧ s.hall2Tripped = true then
    { s with
      out := s.out ++
        ["Hall1 Speed: " ++ toString (hall1SledSpeed s) ++ " mm/s",
         "Hall2 Speed: " ++ toString (hall2SledSpeed s) ++ " mm/s"]
      divZeroHit := s.divZeroHit || decide (msub s.hall1TripTime s.coil0TriggerTime = 0)
        || decide (msub s.hall2TripTime s.hall1TripTime = 0)
      hall1Tripped := false
      hall2Tripped := false
      launched := false }
  else s

/-- Lines 152-157: re-arm gate. -/
def rearmStep (i : Inputs) (s : State) : State :=
  if REARM_DELAY < msub i.tRearm s.coil0TriggerTime ∧ i.swRearm = true then
    if s.coil0Active = false ∧ s.coil1Active = false then
      turnLED 3 { s with readyToLaunch := true }
    else { s with readyToLaunch := true }
  else s

/-- Lines 158-169: fire coil 0. -/
def fireCoil0Step (i : Inputs) (s : State) : State :=
  if s.readyToLaunch = true ∧ s.coil0Active = false ∧ s.coil1Active = false ∧
      i.hall1b = 1 ∧ i.hall2b = 1 ∧ i.swFire = false then
    { s with
      readyToLaunch := false
      launched := true
      coil0Active := true
      out := s.out ++ ["Coil0 Fired: 0ms"]
      trigger0 := true
      coil0TriggerTime := i.tFire0 }
  else s

/-- Lines 175-180: the part of the coil-1 firing transition executed before
`delay(holdOffDelay)`: TRIGGER0 off, coil0Active cleared, coil1Active set,
hold-off value reported. -/
def fireCoil1Pre (s : State) : State :=
  { s with
    trigger0 := false
    coil0Active := false
    coil1Active := true
    out := s.out ++ ["Holdoff delay " ++ toString s.holdOffDelay ++ " ms"] }

/-- Lines 182-188: the part of the coil-1 firing transition executed after
`delay(holdOffDelay)`: TRIGGER1 on, trigger time recorded, fire reported. -/
def fireCoil1Post (i : Inputs) (s : State) : State :=
  { s with
    trigger1 := true
    coil1TriggerTime := i.tFire1
    out := s.out ++ ["Coil1 Fired: " ++ toString (msub i.tFire1 s.coil0TriggerTime) ++ " ms"] }

/-- Lines 172-189: fire coil 1 when the sled reaches hall sensor 1. -/
def fireCoil1Step (i : Inputs) (s : State) : State :=
  if s.launched = true ∧ s.coil1Active = false ∧ i.hall1c = 0 then
    fireCoil1Post i (fireCoil1Pre s)
  else s

/-- Lines 192-198: coil-0 pulse-width auto-off. -/
def pulse0Step (i : Inputs) (s : State) : State :=
  if s.coil0Active = true ∧ pulseWidth < msub i.tPulse0 s.coil0TriggerTime then
    { s with coil0Active := false, trigger0 := false, out := s.out ++ ["Turn off coil0"] }
  else s

/-- Lines 199-205: coil-1 pulse-width auto-off. -/
def pulse1Step (i : Inputs) (s : State) : State :=
  if s.coil1Active = true ∧ pulseWidth < msub i.tPulse1 s.coil1TriggerTime then
    { s with coil1Active := false, trigger1 := false, out := s.out ++ ["Turn off coil1"] }
  else s

/-- The state reached just before the coil-1 firing check (line 172). -/
def preFire1 (i : Inputs) (s : State) : State :=
  fireCoil0Step i (rearmStep i (velocityStep (hall2Step i (hall1Step i
    (ledStep (watchdogStep i (holdOffStep i s)))))))

/-- One full iteration of `loop()`. -/
def loopStep (i : Inputs) (s : State) : State :=
  pulse1Step i (pulse0Step i (fireCoil1Step i (preFire1 i s)))

/-- States reachable from startup by iterating `loop()` with arbitrary
external readings. -/
inductive Reachable : State → Prop
  | init : Reachable initState
  | step : ∀ {s : State} (i : Inputs), Reachable s → Reachable (loopStep i s)

/-! ## Arithmetic facts about the wrap-around subtraction -/

theorem msub_eq_sub {a b : Nat} (hle : b ≤ a) (hlt : a - b < M32) : msub a b = a - b := by
  have h1 : b % M32 + M32 * (b / M32) = b := Nat.mod_add_div b M32
  have h3 : a + (M32 - b % M32) = (a - b) + (b / M32 + 1) * M32 := by
    have h2 : b % M32 < M32 := Nat.mod_lt _ (by norm_num [M32])
    simp only [M32] at *
    omega
  unfold msub
  rw [h3, Nat.add_mul_mod_self_right, Nat.mod_eq_of_lt hlt]

/-! ## Frame and characterization lemmas for the loop phases -/

section PhaseLemmas

variable (i : Inputs) (s : State)

@[simp] theorem holdOffStep_coil0TriggerTime : (holdOffStep i s).coil0TriggerTime = s.coil0TriggerTime := rfl
@[simp] theorem holdOffStep_coil1TriggerTime : (holdOffStep i s).coil1TriggerTime = s.coil1TriggerTime := rfl
@[simp] theorem holdOffStep_hall1TripTime : (holdOffStep i s).hall1TripTime = s.hall1TripTime := rfl
@[simp] theorem holdOffStep_hall2TripTime : (holdOffStep i s).hall2TripTime = s.hall2TripTime := rfl
@[simp] theorem holdOffStep_readyToLaunch : (holdOffStep i s).readyToLaunch = s.readyToLaunch := rfl
@[simp] theorem holdOffStep_launched : (holdOffStep i s).launched = s.launched := rfl
@[simp] theorem holdOffStep_coil0Active : (holdOffStep i s).coil0Active = s.coil0Active := rfl
@[simp] theorem holdOffStep_coil1Active : (holdOffStep i s).coil1Active = s.coil1Active := rfl
@[simp] theorem holdOffStep_hall1Tripped : (holdOffStep i s).hall1Tripped = s.hall1Tripped := rfl
@[simp] theorem holdOffStep_hall2Tripped : (holdOffStep i s).hall2Tripped = s.hall2Tripped := rfl
@[simp] theorem holdOffStep_trigger0 : (holdOffStep i s).trigger0 = s.trigger0 := rfl
@[simp] theorem holdOffStep_trigger1 : (holdOffStep i s).trigger1 = s.trigger1 := rfl
@[simp] theorem holdOffStep_divZeroHit : (holdOffStep i s).divZeroHit = s.divZeroHit := rfl
@[simp] theorem holdOffStep_holdOffDelay : (holdOffStep i s).holdOffDelay = arduinoMap i.analog 0 1023 0 102 := rfl

@[simp] theorem turnLED_coil0TriggerTime (c : Nat) : (turnLED c s).coil0TriggerTime = s.coil0TriggerTime := by
  unfold turnLED; split_ifs <;> rfl
@[simp] theorem turnLED_coil1TriggerTime (c : Nat) : (turnLED c s).coil1TriggerTime = s.coil1TriggerTime := by
  unfold turnLED; split_ifs <;> rfl
@[simp] theorem turnLED_hall1TripTime (c : Nat) : (turnLED c s).hall1TripTime = s.hall1TripTime := by
  unfold turnLED; split_ifs <;> rfl
@[simp] theorem turnLED_hall2TripTime (c : Nat) : (turnLED c s).hall2TripTime = s.hall2TripTime := by
  unfold turnLED; split_ifs <;> rfl
@[simp] theorem turnLED_readyToLaunch (c : Nat) : (turnLED c s).readyToLaunch = s.readyToLaunch := by
  unfold turnLED; split_ifs <;> rfl
@[simp] theorem turnLED_launched (c : Nat) : (turnLED c s).launched = s.launched := by
  unfold turnLED; split_ifs <;> rfl
@[simp] theorem turnLED_coil0Active (c : Nat) : (turnLED c s).coil0Active = s.coil0Active := by
  unfold turnLED; split_ifs <;> rfl
@[simp] theorem turnLED_coil1Active (c : Nat) : (turnLED c s).coil1Active = s.coil1Active := by
  unfold turnLED; split_ifs <;> rfl
@[simp] theorem turnLED_hall1Tripped (c : Nat) : (turnLED c s).hall1Tripped = s.hall1Tripped := by
  unfold turnLED; split_ifs <;> rfl
@[simp] theorem turnLED_hall2Tripped (c : Nat) : (turnLED c s).hall2Tripped = s.hall2Tripped := by
  unfold turnLED; split_ifs <;> rfl
@[simp] theorem turnLED_trigger0 (c : Nat) : (turnLED c s).trigger0 = s.trigger0 := by
  unfold turnLED; split_ifs <;> rfl
@[simp] theorem turnLED_trigger1 (c : Nat) : (turnLED c s).trigger1 = s.trigger1 := by
  unfold turnLED; split_ifs <;> rfl
@[simp] theorem turnLED_divZeroHit (c : Nat) : (turnLED c s).divZeroHit = s.divZeroHit := by
  unfold turnLED; split_ifs <;> rfl
@[simp] theorem turnLED_holdOffDelay (c : Nat) : (turnLED c s).holdOffDelay = s.holdOffDelay := by
  unfold turnLED; split_ifs <;> rfl
@[simp] theorem turnLED_out (c : Nat) : (turnLED c s).out = s.out := by
  unfold turnLED; split_ifs <;> rfl

@[simp] theorem ledStep_coil0TriggerTime : (ledStep s).coil0TriggerTime = s.coil0TriggerTime := by
  unfold ledStep; split_ifs <;> simp
@[simp] theorem ledStep_coil1TriggerTime : (ledStep s).coil1TriggerTime = s.coil1TriggerTime := by
  unfold ledStep; split_ifs <;> simp
@[simp] theorem ledStep_hall1TripTime : (ledStep s).hall1TripTime = s.hall1TripTime := by
  unfold ledStep; split_ifs <;> simp
@[simp] theorem ledStep_hall2TripTime : (ledStep s).hall2TripTime = s.hall2TripTime := by
  unfold ledStep; split_ifs <;> simp
@[simp] theorem ledStep_readyToLaunch : (ledStep s).readyToLaunch = s.readyToLaunch := by
  unfold ledStep; split_ifs <;> simp
@[simp] theorem ledStep_launched : (ledStep s).launched = s.launched := by
  unfold ledStep; split_ifs <;> simp
@[simp] theorem ledStep_coil0Active : (ledStep s).coil0Active = s.coil0Active := by
  unfold ledStep; split_ifs <;> simp
@[simp] theorem ledStep_coil1Active : (ledStep s).coil1Active = s.coil1Active := by
  unfold ledStep; split_ifs <;> simp
@[simp] theorem ledStep_hall1Tripped : (ledStep s).hall1Tripped = s.hall1Tripped := by
  unfold ledStep; split_ifs <;> simp
@[simp] theorem ledStep_hall2Tripped : (ledStep s).hall2Tripped = s.hall2Tripped := by
  unfold ledStep; split_ifs <;> simp
@[simp] theorem ledStep_trigger0 : (ledStep s).trigger0 = s.trigger0 := by
  unfold ledStep; split_ifs <;> simp
@[simp] theorem ledStep_trigger1 : (ledStep s).trigger1 = s.trigger1 := by
  unfold ledStep; split_ifs <;> simp
@[simp] theorem ledStep_divZeroHit : (ledStep s).divZeroHit = s.divZeroHit := by
  unfold ledStep; split_ifs <;> simp
@[simp] theorem ledStep_holdOffDelay : (ledStep s).holdOffDelay = s.holdOffDelay := by
  unfold ledStep; split_ifs <;> simp
@[simp] theorem ledStep_out : (ledStep s).out = s.out := by
  unfold ledStep; split_ifs <;> simp

@[simp] theorem watchdogStep_coil0TriggerTime : (watchdogStep i s).coil0TriggerTime = s.coil0TriggerTime := by
  unfold watchdogStep; split <;> rfl
@[simp] theorem watchdogStep_coil1TriggerTime : (watchdogStep i s).coil1TriggerTime = s.coil1TriggerTime := by
  unfold watchdogStep; split <;> rfl
@[simp] theorem watchdogStep_hall1TripTime : (watchdogStep i s).hall1TripTime = s.hall1TripTime := by
  unfold watchdogStep; split <;> rfl
@[simp] theorem watchdogStep_hall2TripTime : (watchdogStep i s).hall2TripTime = s.hall2TripTime := by
  unfold watchdogStep; split <;> rfl
@[simp] theorem watchdogStep_readyToLaunch : (watchdogStep i s).readyToLaunch = s.readyToLaunch := by
  unfold watchdogStep; split <;> rfl
@[simp] theorem watchdogStep_hall1Tripped : (watchdogStep i s).hall1Tripped = s.hall1Tripped := by
  unfold watchdogStep; split <;> rfl
@[simp] theorem watchdogStep_hall2Tripped : (watchdogStep i s).hall2Tripped = s.hall2Tripped := by
  unfold watchdogStep; split <;> rfl
@[simp] theorem watchdogStep_divZeroHit : (watchdogStep i s).divZeroHit = s.divZeroHit := by
  unfold watchdogStep; split <;> rfl
@[simp] theorem watchdogStep_holdOffDelay : (watchdogStep i s).holdOffDelay = s.holdOffDelay := by
  unfold watchdogStep; split <;> rfl

theorem watchdogStep_launched : (watchdogStep i s).launched =
    if s.launched = true ∧ FAIL_SAFE_LIMIT < msub i.tWd s.coil0TriggerTime then false else s.launched := by
  unfold watchdogStep; split <;> simp_all
theorem watchdogStep_coil0Active : (watchdogStep i s).coil0Active =
    if s.launched = true ∧ FAIL_SAFE_LIMIT < msub i.tWd s.coil0TriggerTime then false else s.coil0Active := by
  unfold watchdogStep; split <;> simp_all
theorem watchdogStep_coil1Active : (watchdogStep i s).coil1Active =
    if s.launched = true ∧ FAIL_SAFE_LIMIT < msub i.tWd s.coil0TriggerTime then false else s.coil1Active := by
  unfold watchdogStep; split <;> simp_all
theorem watchdogStep_trigger0 : (watchdogStep i s).trigger0 =
    if s.launched = true ∧ FAIL_SAFE_LIMIT < msub i.tWd s.coil0TriggerTime then false else s.trigger0 := by
  unfold watchdogStep; split <;> simp_all
theorem watchdogStep_trigger1 : (watchdogStep i s).trigger1 =
    if s.launched = true ∧ FAIL_SAFE_LIMIT < msub i.tWd s.coil0TriggerTime then false else s.trigger1 := by
  unfold watchdogStep; split <;> simp_all

@[simp] theorem hall1Step_coil0TriggerTime : (hall1Step i s).coil0TriggerTime = s.coil0TriggerTime := by
  unfold hall1Step; split <;> rfl
@[simp] theorem hall1Step_coil1TriggerTime : (hall1Step i s).coil1TriggerTime = s.coil1TriggerTime := by
  unfold hall1Step; split <;> rfl
@[simp] theorem hall1Step_hall2TripTime : (hall1Step i s).hall2TripTime = s.hall2TripTime := by
  unfold hall1Step; split <;> rfl
@[simp] theorem hall1Step_readyToLaunch : (hall1Step i s).readyToLaunch = s.readyToLaunch := by
  unfold hall1Step; split <;> rfl
@[simp] theorem hall1Step_launched : (hall1Step i s).launched = s.launched := by
  unfold hall1Step; split <;> rfl
@[simp] theorem hall1Step_coil0Active : (hall1Step i s).coil0Active = s.coil0Active := by
  unfold hall1Step; split <;> rfl
@[simp] theorem hall1Step_coil1Active : (hall1Step i s).coil1Active = s.coil1Active := by
  unfold hall1Step; split <;> rfl
@[simp] theorem hall1Step_hall2Tripped : (hall1Step i s).hall2Tripped = s.hall2Tripped := by
  unfold hall1Step; split <;> rfl
@[simp] theorem hall1Step_trigger0 : (hall1Step i s).trigger0 = s.trigger0 := by
  unfold hall1Step; split <;> rfl
@[simp] theorem hall1Step_trigger1 : (hall1Step i s).trigger1 = s.trigger1 := by
  unfold hall1Step; split <;> rfl
@[simp] theorem hall1Step_divZeroHit : (hall1Step i s).divZeroHit = s.divZeroHit := by
  unfold hall1Step; split <;> rfl
@[simp] theorem hall1Step_holdOffDelay : (hall1Step i s).holdOffDelay = s.holdOffDelay := by
  unfold hall1Step; split <;> rfl

@[simp] theorem hall2Step_coil0TriggerTime : (hall2Step i s).coil0TriggerTime = s.coil0TriggerTime := by
  unfold hall2Step; split <;> rfl
@[simp] theorem hall2Step_coil1TriggerTime : (hall2Step i s).coil1TriggerTime = s.coil1TriggerTime := by
  unfold hall2Step; split <;> rfl
@[simp] theorem hall2Step_hall1TripTime : (hall2Step i s).hall1TripTime = s.hall1TripTime := by
  unfold hall2Step; split <;> rfl
@[simp] theorem hall2Step_readyToLaunch : (hall2Step i s).readyToLaunch = s.readyToLaunch := by
  unfold hall2Step; split <;> rfl
@[simp] theorem hall2Step_launched : (hall2Step i s).launched = s.launched := by
  unfold hall2Step; split <;> rfl
@[simp] theorem hall2Step_coil0Active : (hall2Step i s).coil0Active = s.coil0Active := by
  unfold hall2Step; split <;> rfl
@[simp] theorem hall2Step_coil1Active : (hall2Step i s).coil1Active = s.coil1Active := by
  unfold hall2Step; split <;> rfl
@[simp] theorem hall2Step_hall1Tripped : (hall2Step i s).hall1Tripped = s.hall1Tripped := by
  unfold hall2Step; split <;> rfl
@[simp] theorem hall2Step_trigger0 : (hall2Step i s).trigger0 = s.trigger0 := by
  unfold hall2Step; split <;> rfl
@[simp] theorem hall2Step_trigger1 : (hall2Step i s).trigger1 = s.trigger1 := by
  unfold hall2Step; split <;> rfl
@[simp] theorem hall2Step_divZeroHit : (hall2Step i s).divZeroHit = s.divZeroHit := by
  unfold hall2Step; split <;> rfl
@[simp] theorem hall2Step_holdOffDelay : (hall2Step i s).holdOffDelay = s.holdOffDelay := by
  unfold hall2Step; split <;> rfl

@[simp] theorem velocityStep_coil0TriggerTime : (velocityStep s).coil0TriggerTime = s.coil0TriggerTime := by
  unfold velocityStep; split <;> rfl
@[simp] theorem velocityStep_coil1TriggerTime : (velocityStep s).coil1TriggerTime = s.coil1TriggerTime := by
  unfold velocityStep; split <;> rfl
@[simp] theorem velocityStep_hall1TripTime : (velocityStep s).hall1TripTime = s.hall1TripTime := by
  unfold velocityStep; split <;> rfl
@[simp] theorem velocityStep_hall2TripTime : (velocityStep s).hall2TripTime = s.hall2TripTime := by
  unfold velocityStep; split <;> rfl
@[simp] theorem velocityStep_readyToLaunch : (velocityStep s).readyToLaunch = s.readyToLaunch := by
  unfold velocityStep; split <;> rfl
@[simp] theorem velocityStep_coil0Active : (velocityStep s).coil0Active = s.coil0Active := by
  unfold velocityStep; split <;> rfl
@[simp] theorem velocityStep_coil1Active : (velocityStep s).coil1Active = s.coil1Active := by
  unfold velocityStep; split <;> rfl
@[simp] theorem velocityStep_trigger0 : (velocityStep s).trigger0 = s.trigger0 := by
  unfold velocityStep; split <;> rfl
@[simp] theorem velocityStep_trigger1 : (velocityStep s).trigger1 = s.trigger1 := by
  unfold velocityStep; split <;> rfl
@[simp] theorem velocityStep_holdOffDelay : (velocityStep s).holdOffDelay = s.holdOffDelay := by
  unfold velocityStep; split <;> rfl

theorem velocityStep_launched : (velocityStep s).launched =
    if s.hall1Tripped = true ∧ s.hall2Tripped = true then false else s.launched := by
  unfold velocityStep; split <;> simp_all

@[simp] theorem rearmStep_coil0TriggerTime : (rearmStep i s).coil0TriggerTime = s.coil0TriggerTime := by
  unfold rearmStep; split_ifs <;> simp
@[simp] theorem rearmStep_coil1TriggerTime : (rearmStep i s).coil1TriggerTime = s.coil1TriggerTime := by
  unfold rearmStep; split_ifs <;> simp
@[simp] theorem rearmStep_hall1TripTime : (rearmStep i s).hall1TripTime = s.hall1TripTime := by
  unfold rearmStep; split_ifs <;> simp
@[simp] theorem rearmStep_hall2TripTime : (rearmStep i s).hall2TripTime = s.hall2TripTime := by
  unfold rearmStep; split_ifs <;> simp
@[simp] theorem rearmStep_launched : (rearmStep i s).launched = s.launched := by
  unfold rearmStep; split_ifs <;> simp
@[simp] theorem rearmStep_coil0Active : (rearmStep i s).coil0Active = s.coil0Active := by
  unfold rearmStep; split_ifs <;> simp
@[simp] theorem rearmStep_coil1Active : (rearmStep i s).coil1Active = s.coil1Active := by
  unfold rearmStep; split_ifs <;> simp
@[simp] theorem rearmStep_hall1Tripped : (rearmStep i s).hall1Tripped = s.hall1Tripped := by
  unfold rearmStep; split_ifs <;> simp
@[simp] theorem rearmStep_hall2Tripped : (rearmStep i s).hall2Tripped = s.hall2Tripped := by
  unfold rearmStep; split_ifs <;> simp
@[simp] theorem rearmStep_trigger0 : (rearmStep i s).trigger0 = s.trigger0 := by
  unfold rearmStep; split_ifs <;> simp
@[simp] theorem rearmStep_trigger1 : (rearmStep i s).trigger1 = s.trigger1 := by
  unfold rearmStep; split_ifs <;> simp
@[simp] theorem rearmStep_divZeroHit : (rearmStep i s).divZeroHit = s.divZeroHit := by
  unfold rearmStep; split_ifs <;> simp
@[simp] theorem rearmStep_holdOffDelay : (rearmStep i s).holdOffDelay = s.holdOffDelay := by
  unfold rearmStep; split_ifs <;> simp
@[simp] theorem rearmStep_out : (rearmStep i s).out = s.out := by
  unfold rearmStep; split_ifs <;> simp

theorem rearmStep_readyToLaunch : (rearmStep i s).readyToLaunch =
    if REARM_DELAY < msub i.tRearm s.coil0TriggerTime ∧ i.swRearm = true then true
    else s.readyToLaunch := by
  unfold rearmStep; split_ifs <;> simp

@[simp] theorem fireCoil0Step_coil1TriggerTime : (fireCoil0Step i s).coil1TriggerTime = s.coil1TriggerTime := by
  unfold fireCoil0Step; split <;> rfl
@[simp] theorem fireCoil0Step_hall1TripTime : (fireCoil0Step i s).hall1TripTime = s.hall1TripTime := by
  unfold fireCoil0Step; split <;> rfl
@[simp] theorem fireCoil0Step_hall2TripTime : (fireCoil0Step i s).hall2TripTime = s.hall2TripTime := by
  unfold fireCoil0Step; split <;> rfl
@[simp] theorem fireCoil0Step_coil1Active : (fireCoil0Step i s).coil1Active = s.coil1Active := by
  unfold fireCoil0Step; split <;> rfl
@[simp] theorem fireCoil0Step_hall1Tripped : (fireCoil0Step i s).hall1Tripped = s.hall1Tripped := by
  unfold fireCoil0Step; split <;> rfl
@[simp] theorem fireCoil0Step_hall2Tripped : (fireCoil0Step i s).hall2Tripped = s.hall2Tripped := by
  unfold fireCoil0Step; split <;> rfl
@[simp] theorem fireCoil0Step_trigger1 : (fireCoil0Step i s).trigger1 = s.trigger1 := by
  unfold fireCoil0Step; split <;> rfl
@[simp] theorem fireCoil0Step_divZeroHit : (fireCoil0Step i s).divZeroHit = s.divZeroHit := by
  unfold fireCoil0Step; split <;> rfl
@[simp] theorem fireCoil0Step_holdOffDelay : (fireCoil0Step i s).holdOffDelay = s.holdOffDelay := by
  unfold fireCoil0Step; split <;> rfl

/-- The guard of the coil-0 firing block (line 158). -/
def fire0Cond (i : Inputs) (s : State) : Prop :=
  s.readyToLaunch = true ∧ s.coil0Active = false ∧ s.coil1Active = false ∧
    i.hall1b = 1 ∧ i.hall2b = 1 ∧ i.swFire = false

instance (i : Inputs) (s : State) : Decidable (fire0Cond i s) := by
  unfold fire0Cond; infer_instance

theorem fireCoil0Step_eq : fireCoil0Step i s =
    if fire0Cond i s then
      { s with
        readyToLaunch := false
        launched := true
        coil0Active := true
        out := s.out ++ ["Coil0 Fired: 0ms"]
        trigger0 := true
        coil0TriggerTime := i.tFire0 }
    else s := rfl

theorem fireCoil0Step_readyToLaunch : (fireCoil0Step i s).readyToLaunch =
    if fire0Cond i s then false else s.readyToLaunch := by
  rw [fireCoil0Step_eq]; split <;> rfl
theorem fireCoil0Step_launched : (fireCoil0Step i s).launched =
    if fire0Cond i s then true else s.launched := by
  rw [fireCoil0Step_eq]; split <;> rfl
theorem fireCoil0Step_coil0Active : (fireCoil0Step i s).coil0Active =
    if fire0Cond i s then true else s.coil0Active := by
  rw [fireCoil0Step_eq]; split <;> rfl
theorem fireCoil0Step_trigger0 : (fireCoil0Step i s).trigger0 =
    if fire0Cond i s then true else s.trigger0 := by
  rw [fireCoil0Step_eq]; split <;> rfl
theorem fireCoil0Step_coil0TriggerTime : (fireCoil0Step i s).coil0TriggerTime =
    if fire0Cond i s then i.tFire0 else s.coil0TriggerTime := by
  rw [fireCoil0Step_eq]; split <;> rfl

/-- The guard of the coil-1 firing block (line 172). -/
def fire1Cond (i : Inputs) (s : State) : Prop :=
  s.launched = true ∧ s.coil1Active = false ∧ i.hall1c = 0

instance (i : Inputs) (s : State) : Decidable (fire1Cond i s) := by
  unfold fire1Cond; infer_instance

theorem fireCoil1Step_eq : fireCoil1Step i s =
    if fire1Cond i s then fireCoil1Post i (fireCoil1Pre s) else s := rfl

@[simp] theorem fireCoil1Step_coil0TriggerTime : (fireCoil1Step i s).coil0TriggerTime = s.coil0TriggerTime := by
  rw [fireCoil1Step_eq]; split <;> rfl
@[simp] theorem fireCoil1Step_hall1TripTime : (fireCoil1Step i s).hall1TripTime = s.hall1TripTime := by
  rw [fireCoil1Step_eq]; split <;> rfl
@[simp] theorem fireCoil1Step_hall2TripTime : (fireCoil1Step i s).hall2TripTime = s.hall2TripTime := by
  rw [fireCoil1Step_eq]; split <;> rfl
@[simp] theorem fireCoil1Step_readyToLaunch : (fireCoil1Step i s).readyToLaunch = s.readyToLaunch := by
  rw [fireCoil1Step_eq]; split <;> rfl
@[simp] theorem fireCoil1Step_launched : (fireCoil1Step i s).launched = s.launched := by
  rw [fireCoil1Step_eq]; split <;> rfl
@[simp] theorem fireCoil1Step_hall1Tripped : (fireCoil1Step i s).hall1Tripped = s.hall1Tripped := by
  rw [fireCoil1Step_eq]; split <;> rfl
@[simp] theorem fireCoil1Step_hall2Tripped : (fireCoil1Step i s).hall2Tripped = s.hall2Tripped := by
  rw [fireCoil1Step_eq]; split <;> rfl
@[simp] theorem fireCoil1Step_divZeroHit : (fireCoil1Step i s).divZeroHit = s.divZeroHit := by
  rw [fireCoil1Step_eq]; split <;> rfl
@[simp] theorem fireCoil1Step_holdOffDelay : (fireCoil1Step i s).holdOffDelay = s.holdOffDelay := by
  rw [fireCoil1Step_eq]; split <;> rfl

theorem fireCoil1Step_coil0Active : (fireCoil1Step i s).coil0Active =
    if fire1Cond i s then false else s.coil0Active := by
  rw [fireCoil1Step_eq]; split <;> rfl
theorem fireCoil1Step_coil1Active : (fireCoil1Step i s).coil1Active =
    if fire1Cond i s then true else s.coil1Active := by
  rw [fireCoil1Step_eq]; split <;> rfl
theorem fireCoil1Step_trigger0 : (fireCoil1Step i s).trigger0 =
    if fire1Cond i s then false else s.trigger0 := by
  rw [fireCoil1Step_eq]; split <;> rfl
theorem fireCoil1Step_trigger1 : (fireCoil1Step i s).trigger1 =
    if fire1Cond i s then true else s.trigger1 := by
  rw [fireCoil1Step_eq]; split <;> rfl
theorem fireCoil1Step_coil1TriggerTime : (fireCoil1Step i s).coil1TriggerTime =
    if fire1Cond i s then i.tFire1 else s.coil1TriggerTime := by
  rw [fireCoil1Step_eq]; split <;> rfl

/-- The guard of the coil-0 auto-off block (line 192). -/
def pulse0Cond (i : Inputs) (s : State) : Prop :=
  s.coil0Active = true ∧ pulseWidth < msub i.tPulse0 s.coil0TriggerTime

instance (i : Inputs) (s : State) : Decidable (pulse0Cond i s) := by
  unfold pulse0Cond; infer_instance

/-- The guard of the coil-1 auto-off block (line 199). -/
def pulse1Cond (i : Inputs) (s : State) : Prop :=
  s.coil1Active = true ∧ pulseWidth < msub i.tPulse1 s.coil1TriggerTime

instance (i : Inputs) (s : State) : Decidable (pulse1Cond i s) := by
  unfold pulse1Cond; infer_instance

theorem pulse0Step_eq : pulse0Step i s =
    if pulse0Cond i s then
      { s with coil0Active := false, trigger0 := false, out := s.out ++ ["Turn off coil0"] }
    else s := rfl

theorem pulse1Step_eq : pulse1Step i s =
    if pulse1Cond i s then
      { s with coil1Active := false, trigger1 := false, out := s.out ++ ["Turn off coil1"] }
    else s := rfl

@[simp] theorem pulse0Step_coil0TriggerTime : (pulse0Step i s).coil0TriggerTime = s.coil0TriggerTime := by
  unfold pulse0Step; split <;> rfl
@[simp] theorem pulse0Step_coil1TriggerTime : (pulse0Step i s).coil1TriggerTime = s.coil1TriggerTime := by
  unfold pulse0Step; split <;> rfl
@[simp] theorem pulse0Step_hall1TripTime : (pulse0Step i s).hall1TripTime = s.hall1TripTime := by
  unfold pulse0Step; split <;> rfl
@[simp] theorem pulse0Step_hall2TripTime : (pulse0Step i s).hall2TripTime = s.hall2TripTime := by
  unfold pulse0Step; split <;> rfl
@[simp] theorem pulse0Step_readyToLaunch : (pulse0Step i s).readyToLaunch = s.readyToLaunch := by
  unfold pulse0Step; split <;> rfl
@[simp] theorem pulse0Step_launched : (pulse0Step i s).launched = s.launched := by
  unfold pulse0Step; split <;> rfl
@[simp] theorem pulse0Step_coil1Active : (pulse0Step i s).coil1Active = s.coil1Active := by
  unfold pulse0Step; split <;> rfl
@[simp] theorem pulse0Step_hall1Tripped : (pulse0Step i s).hall1Tripped = s.hall1Tripped := by
  unfold pulse0Step; split <;> rfl
@[simp] theorem pulse0Step_hall2Tripped : (pulse0Step i s).hall2Tripped = s.hall2Tripped := by
  unfold pulse0Step; split <;> rfl
@[simp] theorem pulse0Step_trigger1 : (pulse0Step i s).trigger1 = s.trigger1 := by
  unfold pulse0Step; split <;> rfl
@[simp] theorem pulse0Step_divZeroHit : (pulse0Step i s).divZeroHit = s.divZeroHit := by
  unfold pulse0Step; split <;> rfl
@[simp] theorem pulse0Step_holdOffDelay : (pulse0Step i s).holdOffDelay = s.holdOffDelay := by
  unfold pulse0Step; split <;> rfl

theorem pulse0Step_coil0Active : (pulse0Step i s).coil0Active =
    if pulse0Cond i s then false else s.coil0Active := by
  rw [pulse0Step_eq]; split <;> rfl
theorem pulse0Step_trigger0 : (pulse0Step i s).trigger0 =
    if pulse0Cond i s then false else s.trigger0 := by
  rw [pulse0Step_eq]; split <;> rfl

@[simp] theorem pulse1Step_coil0TriggerTime : (pulse1Step i s).coil0TriggerTime = s.coil0TriggerTime := by
  unfold pulse1Step; split <;> rfl
@[simp] theorem pulse1Step_coil1TriggerTime : (pulse1Step i s).coil1TriggerTime = s.coil1TriggerTime := by
  unfold pulse1Step; split <;> rfl
@[simp] theorem pulse1Step_hall1TripTime : (pulse1Step i s).hall1TripTime = s.hall1TripTime := by
  unfold pulse1Step; split <;> rfl
@[simp] theorem pulse1Step_hall2TripTime : (pulse1Step i s).hall2TripTime = s.hall2TripTime := by
  unfold pulse1Step; split <;> rfl
@[simp] theorem pulse1Step_readyToLaunch : (pulse1Step i s).readyToLaunch = s.readyToLaunch := by
  unfold pulse1Step; split <;> rfl
@[simp] theorem pulse1Step_launched : (pulse1Step i s).launched = s.launched := by
  unfold pulse1Step; split <;> rfl
@[simp] theorem pulse1Step_coil0Active : (pulse1Step i s).coil0Active = s.coil0Active := by
  unfold pulse1Step; split <;> rfl
@[simp] theorem pulse1Step_hall1Tripped : (pulse1Step i s).hall1Tripped = s.hall1Tripped := by
  unfold pulse1Step; split <;> rfl
@[simp] theorem pulse1Step_hall2Tripped : (pulse1Step i s).hall2Tripped = s.hall2Tripped := by
  unfold pulse1Step; split <;> rfl
@[simp] theorem pulse1Step_trigger0 : (pulse1Step i s).trigger0 = s.trigger0 := by
  unfold pulse1Step; split <;> rfl
@[simp] theorem pulse1Step_divZeroHit : (pulse1Step i s).divZeroHit = s.divZeroHit := by
  unfold pulse1Step; split <;> rfl
@[simp] theorem pulse1Step_holdOffDelay : (pulse1Step i s).holdOffDelay = s.holdOffDelay := by
  unfold pulse1Step; split <;> rfl

theorem pulse1Step_coil1Active : (pulse1Step i s).coil1Active =
    if pulse1Cond i s then false else s.coil1Active := by
  rw [pulse1Step_eq]; split <;> rfl
theorem pulse1Step_trigger1 : (pulse1Step i s).trigger1 =
    if pulse1Cond i s then false else s.trigger1 := by
  rw [pulse1Step_eq]; split <;> rfl

end PhaseLemmas

/-! ## Claim C2: watchdog shutdown with a minimal frame -/

/-- Claim C2: in every iteration where `launched` is set and the elapsed time
since `coil0TriggerTime` exceeds `FAIL_SAFE_LIMIT`, the watchdog step turns
both trigger outputs off, clears `launched`, `coil0Active` and `coil1Active`,
emits the diagnostic line, and leaves `readyToLaunch`, the hall-trip flags and
all recorded timestamps unchanged. -/
theorem c2_watchdog_frame (i : Inputs) (s : State)
    (hl : s.launched = true)
    (ht : FAIL_SAFE_LIMIT < msub i.tWd s.coil0TriggerTime) :
    (watchdogStep i s).trigger0 = false ∧
    (watchdogStep i s).trigger1 = false ∧
    (watchdogStep i s).launched = false ∧
    (watchdogStep i s).coil0Active = false ∧
    (watchdogStep i s).coil1Active = false ∧
    (watchdogStep i s).out = s.out ++ ["Launch taking too long.  Shutting down!"] ∧
    (watchdogStep i s).readyToLaunch = s.readyToLaunch ∧
    (watchdogStep i s).hall1Tripped = s.hall1Tripped ∧
    (watchdogStep i s).hall2Tripped = s.hall2Tripped ∧
    (watchdogStep i s).coil0TriggerTime = s.coil0TriggerTime ∧
    (watchdogStep i s).coil1TriggerTime = s.coil1TriggerTime ∧
    (watchdogStep i s).hall1TripTime = s.hall1TripTime ∧
    (watchdogStep i s).hall2TripTime = s.hall2TripTime := by
  unfold watchdogStep
  rw [if_pos ⟨hl, ht⟩]
  exact ⟨rfl, rfl, rfl, rfl, rfl, rfl, rfl, rfl, rfl, rfl, rfl, rfl, rfl⟩

/-- Concrete state for the C2 witness: launched, coil fired at instant 0. -/
def c2State : State := { initState with launched := true, coil0Active := true, trigger0 := true }

/-- Concrete inputs for the C2 witness: watchdog clock reads 2000 ms. -/
def c2Input : Inputs :=
  { analog := 0, tWd := 2000, hall1a := 1, tHall1 := 0, hall2a := 1, tHall2 := 0,
    tRearm := 2000, swRearm := false, hall1b := 1, hall2b := 1, swFire := true,
    tFire0 := 2000, hall1c := 1, tFire1 := 2000, tPulse0 := 2000, tPulse1 := 2000 }

theorem c2_watchdog_frame_witness :
    c2State.launched = true ∧
    FAIL_SAFE_LIMIT < msub c2Input.tWd c2State.coil0TriggerTime ∧
    (watchdogStep c2Input c2State).launched = false ∧
    (watchdogStep c2Input c2State).trigger0 = false ∧
    (watchdogStep c2Input c2State).readyToLaunch = c2State.readyToLaunch := by
  refine ⟨by decide, by decide, ?_, ?_, ?_⟩
  · exact (c2_watchdog_frame c2Input c2State (by decide) (by decide)).2.2.1
  · exact (c2_watchdog_frame c2Input c2State (by decide) (by decide)).1
  · exact (c2_watchdog_frame c2Input c2State (by decide) (by decide)).2.2.2.2.2.2.1

/-! ## Claim C5: velocity computation -/

/-- Claim C5: once both hall-trip flags are set, the velocity step reports
`45000 / (hall1TripTime - coil0TriggerTime)` and
`100000 / (hall2TripTime - hall1TripTime)` (integer-truncating division over
the wrap-around time deltas); a 100 ms first interval yields 450 mm/s and a
200 ms second interval yields 500 mm/s; afterwards both tripped flags and
`launched` are cleared. -/
theorem c5_velocity (s : State)
    (h1 : s.hall1Tripped = true) (h2 : s.hall2Tripped = true) :
    (velocityStep s).out = s.out ++
      ["Hall1 Speed: " ++ toString (hall1SledSpeed s) ++ " mm/s",
       "Hall2 Speed: " ++ toString (hall2SledSpeed s) ++ " mm/s"] ∧
    hall1SledSpeed s = 45000 / msub s.hall1TripTime s.coil0TriggerTime ∧
    hall2SledSpeed s = 100000 / msub s.hall2TripTime s.hall1TripTime ∧
    (msub s.hall1TripTime s.coil0TriggerTime = 100 → hall1SledSpeed s = 450) ∧
    (msub s.hall2TripTime s.hall1TripTime = 200 → hall2SledSpeed s = 500) ∧
    (velocityStep s).hall1Tripped = false ∧
    (velocityStep s).hall2Tripped = false ∧
    (velocityStep s).launched = false := by
  have hv : velocityStep s =
      { s with
        out := s.out ++
          ["Hall1 Speed: " ++ toString (hall1SledSpeed s) ++ " mm/s",
           "Hall2 Speed: " ++ toString (hall2SledSpeed s) ++ " mm/s"]
        divZeroHit := s.divZeroHit || decide (msub s.hall1TripTime s.coil0TriggerTime = 0)
          || decide (msub s.hall2TripTime s.hall1TripTime = 0)
        hall1Tripped := false
        hall2Tripped := false
        launched := false } := by
    unfold velocityStep
    rw [if_pos ⟨h1, h2⟩]
  refine ⟨by rw [hv], rfl, rfl, ?_, ?_, by rw [hv], by rw [hv], by rw [hv]⟩
  · intro h; unfold hall1SledSpeed; rw [h]
  · intro h; unfold hall2SledSpeed; rw [h]

/-- Concrete state for the C5 witness: coil0 fired at 0, hall 1 tripped at
100 ms, hall 2 tripped at 300 ms. -/
def c5State : State :=
  { initState with
    launched := true, hall1Tripped := true, hall2Tripped := true,
    hall1TripTime := 100, hall2TripTime := 300 }

theorem c5_velocity_witness :
    c5State.hall1Tripped = true ∧
    c5State.hall2Tripped = true ∧
    msub c5State.hall1TripTime c5State.coil0TriggerTime = 100 ∧
    msub c5State.hall2TripTime c5State.hall1TripTime = 200 ∧
    hall1SledSpeed c5State = 450 ∧
    hall2SledSpeed c5State = 500 ∧
    (velocityStep c5State).launched = false := by
  refine ⟨by decide, by decide, by decide, by decide, ?_, ?_, ?_⟩
  · exact (c5_velocity c5State (by decide) (by decide)).2.2.2.1 (by decide)
  · exact (c5_velocity c5State (by decide) (by decide)).2.2.2.2.1 (by decide)
  · exact (c5_velocity c5State (by decide) (by decide)).2.2.2.2.2.2.2

/-! ## Claim C8: hold-off recomputation and bound -/

/-- Claim C8: every iteration recomputes `holdOffDelay` as the integer
(truncating) Arduino `map` of the analog reading from [0,1023] to [0,102],
and for every analog reading in [0,1023] the stored hold-off lies in [0,102]
(the lower bound is inherent to `Nat`). -/
theorem c8_holdoff_bound (i : Inputs) (s : State) (ha : i.analog ≤ 1023) :
    (loopStep i s).holdOffDelay = arduinoMap i.analog 0 1023 0 102 ∧
    arduinoMap i.analog 0 1023 0 102 ≤ 102 := by
  constructor
  · unfold loopStep preFire1
    simp
  · unfold arduinoMap
    simp only [Nat.sub_zero, Nat.add_zero]
    have h : i.analog * 102 ≤ 1023 * 102 := Nat.mul_le_mul_right _ ha
    calc i.analog * 102 / 1023 ≤ 1023 * 102 / 1023 := Nat.div_le_div_right h
      _ = 102 := by norm_num

/-- Concrete inputs for the C8 witness: analog reading 1023. -/
def c8Input : Inputs :=
  { analog := 1023, tWd := 0, hall1a := 1, tHall1 := 0, hall2a := 1, tHall2 := 0,
    tRearm := 0, swRearm := false, hall1b := 1, hall2b := 1, swFire := true,
    tFire0 := 0, hall1c := 1, tFire1 := 0, tPulse0 := 0, tPulse1 := 0 }

theorem c8_holdoff_bound_witness :
    c8Input.analog ≤ 1023 ∧
    (loopStep c8Input initState).holdOffDelay = arduinoMap c8Input.analog 0 1023 0 102 ∧
    arduinoMap c8Input.analog 0 1023 0 102 ≤ 102 := by
  refine ⟨by decide, ?_⟩
  exact c8_holdoff_bound c8Input initState (by decide)

/-! ## Claim C4: pulse-width auto-off (corrected) -/

/-- First C4 counterexample input: from startup, fire coil 0 at instant 10. -/
def c4Input1 : Inputs :=
  { analog := 0, tWd := 0, hall1a := 1, tHall1 := 0, hall2a := 1, tHall2 := 0,
    tRearm := 0, swRearm := false, hall1b := 1, hall2b := 1, swFire := false,
    tFire0 := 10, hall1c := 1, tFire1 := 10, tPulse0 := 10, tPulse1 := 10 }

/-- Second C4 counterexample input: hall sensor 1 reads "present" at the
coil-1 firing check, clocks at 12..15 ms. -/
def c4Input2 : Inputs :=
  { analog := 0, tWd := 12, hall1a := 1, tHall1 := 12, hall2a := 1, tHall2 := 12,
    tRearm := 12, swRearm := false, hall1b := 1, hall2b := 1, swFire := true,
    tFire0 := 12, hall1c := 0, tFire1 := 15, tPulse0 := 15, tPulse1 := 15 }

/-- Claim C4 as stated is false: coil 0, activated at instant 10, is already
inactive (flag and output) after an iteration whose pulse-check clock reads
15, elapsed time 5 ≤ pulseWidth — it was deactivated early by the coil-1
firing transition, not by pulse expiry. -/
theorem c4_counterexample :
    (loopStep c4Input1 initState).coil0Active = true ∧
    (loopStep c4Input1 initState).trigger0 = true ∧
    (loopStep c4Input1 initState).coil0TriggerTime = 10 ∧
    msub c4Input2.tPulse0 (loopStep c4Input1 initState).coil0TriggerTime ≤ pulseWidth ∧
    (loopStep c4Input2 (loopStep c4Input1 initState)).coil0Active = false ∧
    (loopStep c4Input2 (loopStep c4Input1 initState)).trigger0 = false := by
  decide

/-- Claim C4 amended: the pulse-expiry steps deactivate a coil (output line
and active flag) exactly when the coil is active and the elapsed time since
its trigger exceeds `pulseWidth`; the pulse-expiry step itself never
deactivates a coil earlier, but a coil can also be deactivated earlier by the
watchdog or (for coil 0) by the coil-1 firing transition. -/
theorem c4_amended (i : Inputs) (s : State) :
    ((pulse0Step i s).coil0Active = if pulse0Cond i s then false else s.coil0Active) ∧
    ((pulse0Step i s).trigger0 = if pulse0Cond i s then false else s.trigger0) ∧
    ((pulse1Step i s).coil1Active = if pulse1Cond i s then false else s.coil1Active) ∧
    ((pulse1Step i s).trigger1 = if pulse1Cond i s then false else s.trigger1) ∧
    (pulse0Cond i s ↔ s.coil0Active = true ∧ pulseWidth < msub i.tPulse0 s.coil0TriggerTime) ∧
    (pulse1Cond i s ↔ s.coil1Active = true ∧ pulseWidth < msub i.tPulse1 s.coil1TriggerTime) :=
  ⟨pulse0Step_coil0Active i s, pulse0Step_trigger0 i s,
   pulse1Step_coil1Active i s, pulse1Step_trigger1 i s, Iff.rfl, Iff.rfl⟩

/-! ## Claim C6: unguarded division by zero is reachable -/

/-- First C6 input: from startup, fire coil 0 at instant 10. -/
def c6Input1 : Inputs :=
  { analog := 0, tWd := 0, hall1a := 1, tHall1 := 0, hall2a := 1, tHall2 := 0,
    tRearm := 0, swRearm := false, hall1b := 1, hall2b := 1, swFire := false,
    tFire0 := 10, hall1c := 1, tFire1 := 10, tPulse0 := 10, tPulse1 := 10 }

/-- Second C6 input: both hall sensors trip with clock still reading 10, so
`hall1TripTime = coil0TriggerTime` and the first velocity divisor is zero. -/
def c6Input2 : Inputs :=
  { analog := 0, tWd := 10, hall1a := 0, tHall1 := 10, hall2a := 0, tHall2 := 10,
    tRearm := 10, swRearm := false, hall1b := 1, hall2b := 1, swFire := true,
    tFire0 := 10, hall1c := 1, tFire1 := 10, tPulse0 := 10, tPulse1 := 10 }

/-- Claim C6: a reachable state executes the velocity computation with
coincident timestamps (`hall1TripTime = coil0TriggerTime`), so the divisor
`hall1TripTime - coil0TriggerTime` is zero and the division-by-zero branch of
the embedded computation (latched in `divZeroHit`) is reached. -/
theorem c6_div_by_zero_reachable :
    Reachable (loopStep c6Input2 (loopStep c6Input1 initState)) ∧
    (loopStep c6Input2 (loopStep c6Input1 initState)).hall1TripTime =
      (loopStep c6Input1 initState).coil0TriggerTime ∧
    msub (loopStep c6Input2 (loopStep c6Input1 initState)).hall1TripTime
      (loopStep c6Input1 initState).coil0TriggerTime = 0 ∧
    (loopStep c6Input2 (loopStep c6Input1 initState)).divZeroHit = true := by
  refine ⟨Reachable.step c6Input2 (Reachable.step c6Input1 Reachable.init),
    by decide, by decide, by decide⟩

/-! ## Claim C9: coil energization stays bounded after `launched` is cleared -/

/-- Claim C9: the velocity block clears `launched` without touching the coil
active flags; with `launched` false the watchdog is inert; nevertheless the
pulse-expiry logic, which does not depend on `launched`, still deactivates an
active coil (flag and output line) in any iteration whose pulse-check clock
shows more than `pulseWidth` elapsed since that coil's trigger time. -/
theorem c9_pulse_off_survives_launch_clear (i : Inputs) (s : State) :
    (s.hall1Tripped = true → s.hall2Tripped = true →
      (velocityStep s).launched = false ∧
      (velocityStep s).coil0Active = s.coil0Active ∧
      (velocityStep s).coil1Active = s.coil1Active) ∧
    (s.launched = false → watchdogStep i s = s) ∧
    (s.launched = false → s.coil0Active = true →
      pulseWidth < msub i.tPulse0 s.coil0TriggerTime →
      (loopStep i s).coil0Active = false ∧ (loopStep i s).trigger0 = false) ∧
    (s.launched = false → s.coil1Active = true →
      pulseWidth < msub i.tPulse1 s.coil1TriggerTime →
      (loopStep i s).coil1Active = false ∧ (loopStep i s).trigger1 = false) := by
  refine ⟨?_, ?_, ?_, ?_⟩
  · intro h1 h2
    refine ⟨?_, by simp, by simp⟩
    rw [velocityStep_launched, if_pos ⟨h1, h2⟩]
  · intro hL
    unfold watchdogStep
    rw [if_neg]
    simp [hL]
  · intro hL hc0 hp
    have hLpre : (preFire1 i s).launched = false := by
      unfold preFire1
      simp [fireCoil0Step_launched, velocityStep_launched, watchdogStep_launched,
        watchdogStep_coil0Active, fire0Cond, hL, hc0]
    have hc0pre : (preFire1 i s).coil0Active = true := by
      unfold preFire1
      simp [fireCoil0Step_coil0Active, watchdogStep_coil0Active, fire0Cond, hL, hc0]
    have hT0pre : (preFire1 i s).coil0TriggerTime = s.coil0TriggerTime := by
      unfold preFire1
      simp [fireCoil0Step_coil0TriggerTime, watchdogStep_coil0Active, fire0Cond, hL, hc0]
    have hf1 : ¬ fire1Cond i (preFire1 i s) := by
      simp [fire1Cond, hLpre]
    have hA : (fireCoil1Step i (preFire1 i s)).coil0Active = true := by
      rw [fireCoil1Step_coil0Active, if_neg hf1]; exact hc0pre
    have hB : (fireCoil1Step i (preFire1 i s)).coil0TriggerTime = s.coil0TriggerTime := by
      simp [hT0pre]
    have hPC : pulse0Cond i (fireCoil1Step i (preFire1 i s)) := by
      exact ⟨hA, by rw [hB]; exact hp⟩
    constructor
    · show (pulse1Step i (pulse0Step i (fireCoil1Step i (preFire1 i s)))).coil0Active = false
      rw [pulse1Step_coil0Active, pulse0Step_coil0Active, if_pos hPC]
    · show (pulse1Step i (pulse0Step i (fireCoil1Step i (preFire1 i s)))).trigger0 = false
      rw [pulse1Step_trigger0, pulse0Step_trigger0, if_pos hPC]
  · intro hL hc1 hp
    have hLpre : (preFire1 i s).launched = false := by
      unfold preFire1
      simp [fireCoil0Step_launched, velocityStep_launched, watchdogStep_launched,
        watchdogStep_coil1Active, fire0Cond, hL, hc1]
    have hc1pre : (preFire1 i s).coil1Active = true := by
      unfold preFire1
      simp [watchdogStep_coil1Active, hL, hc1]
    have hT1pre : (preFire1 i s).coil1TriggerTime = s.coil1TriggerTime := by
      unfold preFire1
      simp
    have hf1 : ¬ fire1Cond i (preFire1 i s) := by
      simp [fire1Cond, hLpre]
    have hA : (fireCoil1Step i (preFire1 i s)).coil1Active = true := by
      rw [fireCoil1Step_coil1Active, if_neg hf1]; exact hc1pre
    have hB : (fireCoil1Step i (preFire1 i s)).coil1TriggerTime = s.coil1TriggerTime := by
      rw [fireCoil1Step_coil1TriggerTime, if_neg hf1]; exact hT1pre
    have hPC : pulse1Cond i (pulse0Step i (fireCoil1Step i (preFire1 i s))) := by
      constructor
      · rw [pulse0Step_coil1Active]; exact hA
      · rw [pulse0Step_coil1TriggerTime, hB]; exact hp
    constructor
    · show (pulse1Step i (pulse0Step i (fireCoil1Step i (preFire1 i s)))).coil1Active = false
      rw [pulse1Step_coil1Active, if_pos hPC]
    · show (pulse1Step i (pulse0Step i (fireCoil1Step i (preFire1 i s)))).trigger1 = false
      rw [pulse1Step_trigger1, if_pos hPC]

/-- Concrete state for the C9 witness: both halls latched while coil 1 is
still energized, `launched` about to be (already) cleared. -/
def c9State : State :=
  { initState with
    launched := false, coil1Active := true, trigger1 := true,
    coil0TriggerTime := 0, coil1TriggerTime := 20 }

/-- Concrete inputs for the C9 witness: pulse-check clock reads 60 ms. -/
def c9Input : Inputs :=
  { analog := 0, tWd := 60, hall1a := 1, tHall1 := 60, hall2a := 1, tHall2 := 60,
    tRearm := 60, swRearm := false, hall1b := 1, hall2b := 1, swFire := true,
    tFire0 := 60, hall1c := 1, tFire1 := 60, tPulse0 := 60, tPulse1 := 60 }

theorem c9_pulse_off_survives_launch_clear_witness :
    c9State.launched = false ∧
    c9State.coil1Active = true ∧
    pulseWidth < msub c9Input.tPulse1 c9State.coil1TriggerTime ∧
    (loopStep c9Input c9State).coil1Active = false ∧
    (loopStep c9Input c9State).trigger1 = false := by
  refine ⟨by decide, by decide, by decide, ?_⟩
  exact (c9_pulse_off_survives_launch_clear c9Input c9State).2.2.2
    (by decide) (by decide) (by decide)

/-! ## The debouncer `checkSwitch` (lines 231-250)

`samples j` is the raw `digitalRead(pin)` level at the j-th read (reads are
1 ms apart; `samples 0` is the initial `prevState` read).  `csAux` mirrors the
C `for` loop: one recursion step per loop iteration; on a level change the
body sets `counter = 0` and the `for` increment makes it 1.  The `fuel`
argument bounds the number of loop iterations we are willing to unroll;
`none` means the loop has not terminated within `fuel` iterations. -/

def csAux (samples : Nat → Bool) : Nat → Bool → Nat → Nat → Option (Bool × Nat)
  | 0, _, _, _ => none
  | fuel + 1, prev, c, idx =>
    if c < debounceDelay then
      if samples idx ≠ prev then csAux samples fuel (samples idx) 1 (idx + 1)
      else csAux samples fuel prev (c + 1) (idx + 1)
    else some (prev, idx)

/-- `checkSwitch`: returns the debounced level (`true` = HIGH) once stable,
together with no information about how long it took (`Prod.fst`). -/
def checkSwitch (samples : Nat → Bool) (fuel : Nat) : Option Bool :=
  (csAux samples fuel (samples 0) 0 1).map Prod.fst

theorem csAux_succ (samples : Nat → Bool) (fuel : Nat) (prev : Bool) (c idx : Nat) :
    csAux samples (fuel + 1) prev c idx =
      if c < debounceDelay then
        if samples idx ≠ prev then csAux samples fuel (samples idx) 1 (idx + 1)
        else csAux samples fuel prev (c + 1) (idx + 1)
      else some (prev, idx) := rfl

/-- If `csAux` exits with `(b, e)`, the last `debounceDelay` samples before
the exit index `e` all equal the returned level `b`. -/
theorem csAux_stable_window (samples : Nat → Bool) :
    ∀ (fuel : Nat) (prev : Bool) (c idx : Nat) (b : Bool) (e : Nat),
      c ≤ debounceDelay → c ≤ idx →
      (∀ j, idx - c ≤ j → j < idx → samples j = prev) →
      csAux samples fuel prev c idx = some (b, e) →
      debounceDelay ≤ e ∧ ∀ j, e - debounceDelay ≤ j → j < e → samples j = b := by
  intro fuel
  induction fuel with
  | zero =>
    intro prev c idx b e hc hci hw h
    exact absurd h (by simp [csAux])
  | succ n ih =>
    intro prev c idx b e hc hci hw h
    rw [csAux_succ] at h
    by_cases hlt : c < debounceDelay
    · rw [if_pos hlt] at h
      by_cases hne : samples idx ≠ prev
      · rw [if_pos hne] at h
        refine ih (samples idx) 1 (idx + 1) b e (by norm_num [debounceDelay]) (by omega) ?_ h
        intro j hj1 hj2
        have hj : j = idx := by omega
        rw [hj]
      · rw [if_neg hne] at h
        push_neg at hne
        refine ih prev (c + 1) (idx + 1) b e (by omega) (by omega) ?_ h
        intro j hj1 hj2
        by_cases hj : j = idx
        · rw [hj]; exact hne
        · exact hw j (by omega) (by omega)
    · rw [if_neg hlt] at h
      have hce : c = debounceDelay := by omega
      have hbe := Option.some.inj h
      have hb : prev = b := congrArg Prod.fst hbe
      have he : idx = e := congrArg Prod.snd hbe
      subst hb
      subst he
      exact ⟨by omega, fun j hj1 hj2 => hw j (by omega) hj2⟩

/-! ## Claim C7: debounce contract of `checkSwitch` -/

/-- Claim C7: whenever `checkSwitch` reports a level, that level has held
constant for the full `debounceDelay = 20` consecutive 1 ms polls preceding
the exit, and the reported value is exactly the sampled stable level (`true`
for HIGH, `false` for LOW); moreover any observed level change resets the
stability counter, restarting the window at the changed sample. -/
theorem c7_debounce_contract :
    (∀ (samples : Nat → Bool) (fuel : Nat) (b : Bool),
      checkSwitch samples fuel = some b →
      ∃ e, debounceDelay ≤ e ∧ ∀ j, e - debounceDelay ≤ j → j < e → samples j = b) ∧
    (∀ (samples : Nat → Bool) (fuel : Nat) (prev : Bool) (c idx : Nat),
      c < debounceDelay → samples idx ≠ prev →
      csAux samples (fuel + 1) prev c idx = csAux samples fuel (samples idx) 1 (idx + 1)) := by
  constructor
  · intro samples fuel b h
    unfold checkSwitch at h
    cases hcs : csAux samples fuel (samples 0) 0 1 with
    | none => rw [hcs] at h; exact absurd h (by simp)
    | some p =>
      obtain ⟨b0, e⟩ := p
      rw [hcs] at h
      have hb : b0 = b := by
        have := Option.some.inj h
        simpa using this
      subst hb
      refine ⟨e, ?_⟩
      refine csAux_stable_window samples fuel (samples 0) 0 1 b0 e
        (by norm_num [debounceDelay]) (by omega) ?_ hcs
      intro j hj1 hj2
      exact absurd hj2 (by omega)
  · intro samples fuel prev c idx hc hne
    rw [csAux_succ, if_pos hc, if_pos hne]

theorem c7_debounce_contract_witness :
    checkSwitch (fun _ => true) 21 = some true ∧
    (∃ e, debounceDelay ≤ e ∧
      ∀ j, e - debounceDelay ≤ j → j < e → (fun _ => true : Nat → Bool) j = true) := by
  refine ⟨by decide, ?_⟩
  exact c7_debounce_contract.1 (fun _ => true) 21 true (by decide)

/-! ## Claim C10: termination behaviour of `checkSwitch` (corrected) -/

/-- Fuel monotonicity: a result obtained with some fuel persists with more. -/
theorem csAux_fuel_mono (samples : Nat → Bool) :
    ∀ (fuel : Nat) (prev : Bool) (c idx : Nat) (r : Bool × Nat),
      csAux samples fuel prev c idx = some r →
      csAux samples (fuel + 1) prev c idx = some r := by
  intro fuel
  induction fuel with
  | zero =>
    intro prev c idx r h
    exact absurd h (by simp [csAux])
  | succ n ih =>
    intro prev c idx r h
    rw [csAux_succ] at h
    rw [csAux_succ]
    by_cases hlt : c < debounceDelay
    · rw [if_pos hlt] at h ⊢
      by_cases hne : samples idx ≠ prev
      · rw [if_pos hne] at h ⊢; exact ih _ _ _ _ h
      · rw [if_neg hne] at h ⊢; exact ih _ _ _ _ h
    · rw [if_neg hlt] at h ⊢; exact h

/-- Once past the stability horizon with matching `prev`, the loop exits
within `debounceDelay - c` further polls. -/
theorem csAux_stable_run (samples : Nat → Bool) (L : Bool) (N : Nat)
    (hs : ∀ j, N ≤ j → samples j = L) :
    ∀ (m c idx : Nat), debounceDelay - c ≤ m → c ≤ debounceDelay → N ≤ idx →
      ∃ e, csAux samples (m + 1) L c idx = some (L, e) := by
  intro m
  induction m with
  | zero =>
    intro c idx h1 h2 h3
    refine ⟨idx, ?_⟩
    rw [csAux_succ, if_neg (by omega)]
  | succ m ih =>
    intro c idx h1 h2 h3
    by_cases hc : c < debounceDelay
    · obtain ⟨e, he⟩ := ih (c + 1) (idx + 1) (by omega) (by omega) (by omega)
      refine ⟨e, ?_⟩
      have hsi : samples idx = L := hs idx h3
      rw [csAux_succ, if_pos hc, if_neg (by simp [hsi])]
      exact he
    · refine ⟨idx, ?_⟩
      rw [csAux_succ, if_neg (by omega)]

/-- With an eventually-constant input, `csAux` terminates from any
configuration, given enough fuel. -/
theorem csAux_reaches (samples : Nat → Bool) (L : Bool) (N : Nat)
    (hs : ∀ j, N ≤ j → samples j = L) :
    ∀ (k : Nat) (prev : Bool) (c idx : Nat), N ≤ idx + k → c ≤ debounceDelay →
      ∃ fuel r, csAux samples fuel prev c idx = some r := by
  intro k
  induction k with
  | zero =>
    intro prev c idx hN hc
    by_cases hlt : c < debounceDelay
    · by_cases hp : prev = L
      · obtain ⟨e, he⟩ := csAux_stable_run samples L N hs (debounceDelay - c) c idx
          (le_refl _) (by omega) (by omega)
        refine ⟨debounceDelay - c + 1, (L, e), ?_⟩
        rw [hp]
        exact he
      · have hsi : samples idx = L := hs idx (by omega)
        have hne : samples idx ≠ prev := by rw [hsi]; exact fun hh => hp hh.symm
        obtain ⟨e, he⟩ := csAux_stable_run samples L N hs (debounceDelay - 1) 1 (idx + 1)
          (le_refl _) (by norm_num [debounceDelay]) (by omega)
        refine ⟨debounceDelay - 1 + 1 + 1, (L, e), ?_⟩
        rw [csAux_succ, if_pos hlt, if_pos hne, hsi]
        exact he
    · exact ⟨1, (prev, idx), by rw [csAux_succ, if_neg hlt]⟩
  | succ k ih =>
    intro prev c idx hN hc
    by_cases hlt : c < debounceDelay
    · by_cases hne : samples idx ≠ prev
      · obtain ⟨fuel, r, hf⟩ := ih (samples idx) 1 (idx + 1) (by omega) (by norm_num [debounceDelay])
        refine ⟨fuel + 1, r, ?_⟩
        rw [csAux_succ, if_pos hlt, if_pos hne]
        exact hf
      · obtain ⟨fuel, r, hf⟩ := ih prev (c + 1) (idx + 1) (by omega) (by omega)
        refine ⟨fuel + 1, r, ?_⟩
        rw [csAux_succ, if_pos hlt, if_neg hne]
        exact hf
    · exact ⟨1, (prev, idx), by rw [csAux_succ, if_neg hlt]⟩

/-- With an input that changes within every 20-sample window, `csAux` never
exits: every stability window is broken before the counter reaches 20. -/
theorem csAux_unstable_none (samples : Nat → Bool)
    (hu : ∀ n, ∃ j, n ≤ j ∧ j + 1 < n + debounceDelay ∧ samples j ≠ samples (j + 1)) :
    ∀ (fuel : Nat) (prev : Bool) (c idx : Nat), c ≤ debounceDelay → c ≤ idx →
      (∀ j, idx - c ≤ j → j < idx → samples j = prev) →
      csAux samples fuel prev c idx = none := by
  intro fuel
  induction fuel with
  | zero => intro prev c idx hc hci hw; rfl
  | succ n ih =>
    intro prev c idx hc hci hw
    rw [csAux_succ]
    by_cases hlt : c < debounceDelay
    · rw [if_pos hlt]
      by_cases hne : samples idx ≠ prev
      · rw [if_pos hne]
        refine ih (samples idx) 1 (idx + 1) (by norm_num [debounceDelay]) (by omega) ?_
        intro j hj1 hj2
        have hj : j = idx := by omega
        rw [hj]
      · rw [if_neg hne]
        push_neg at hne
        refine ih prev (c + 1) (idx + 1) (by omega) (by omega) ?_
        intro j hj1 hj2
        by_cases hj : j = idx
        · rw [hj]; exact hne
        · exact hw j (by omega) (by omega)
    · exfalso
      have hce : c = debounceDelay := by omega
      obtain ⟨j, hj1, hj2, hj3⟩ := hu (idx - debounceDelay)
      have e1 : samples j = prev := hw j (by omega) (by omega)
      have e2 : samples (j + 1) = prev := hw (j + 1) (by omega) (by omega)
      exact hj3 (e1.trans e2.symm)

/-- Input for the C10 counterexample: LOW for samples 0..20, HIGH forever
after. -/
def c10Samples : Nat → Bool := fun k => decide (21 ≤ k)

/-- Claim C10 as stated is false on its "returns that level" part: the input
`c10Samples` eventually holds HIGH forever (so it eventually holds one
constant level long enough to satisfy the stability window), yet `checkSwitch`
terminates on the initial LOW run and returns LOW, not HIGH. -/
theorem c10_counterexample :
    (∀ j, 21 ≤ j → c10Samples j = true) ∧
    checkSwitch c10Samples 25 = some false := by
  constructor
  · intro j hj; simp [c10Samples, hj]
  · decide

/-- Claim C10 amended: with an input that eventually holds a constant level
forever, `checkSwitch` terminates (returns some stable level — which is the
first level to satisfy the stability window and need not be the eventual
level); with an input constant from the start it returns that constant level;
and with an input whose level changes at least once within every window of 20
consecutive 1 ms samples, `checkSwitch` never returns, for any fuel. -/
theorem c10_amended :
    (∀ (samples : Nat → Bool) (L : Bool) (N : Nat),
      (∀ j, N ≤ j → samples j = L) →
      ∃ fuel b, checkSwitch samples fuel = some b) ∧
    (∀ (samples : Nat → Bool) (L : Bool),
      (∀ j, samples j = L) →
      ∃ fuel, checkSwitch samples fuel = some L) ∧
    (∀ samples : Nat → Bool,
      (∀ n, ∃ j, n ≤ j ∧ j + 1 < n + debounceDelay ∧ samples j ≠ samples (j + 1)) →
      ∀ fuel, checkSwitch samples fuel = none) := by
  refine ⟨?_, ?_, ?_⟩
  · intro samples L N hs
    obtain ⟨fuel, r, hf⟩ := csAux_reaches samples L N hs N (samples 0) 0 1
      (by omega) (by norm_num [debounceDelay])
    exact ⟨fuel, r.1, by unfold checkSwitch; rw [hf]; rfl⟩
  · intro samples L hs
    have h0 : samples 0 = L := hs 0
    obtain ⟨e, he⟩ := csAux_stable_run samples L 0 (fun j _ => hs j)
      debounceDelay 0 1 (by omega) (by omega) (by omega)
    refine ⟨debounceDelay + 1, ?_⟩
    unfold checkSwitch
    rw [h0, he]
    rfl
  · intro samples hu fuel
    unfold checkSwitch
    rw [csAux_unstable_none samples hu fuel (samples 0) 0 1 (by norm_num [debounceDelay])
      (by omega) (fun j hj1 hj2 => absurd hj2 (by omega))]
    rfl

/-- Alternating input for the C10 witness: changes at every sample. -/
def c10AltSamples : Nat → Bool := fun k => decide (k % 2 = 0)

theorem c10_amended_witness :
    (∃ fuel b, checkSwitch (fun _ => false) fuel = some b) ∧
    (∀ fuel, checkSwitch c10AltSamples fuel = none) := by
  constructor
  · exact c10_amended.1 (fun _ => false) false 0 (fun j _ => rfl)
  · refine c10_amended.2.2 c10AltSamples ?_
    intro n
    refine ⟨n, le_refl n, by norm_num [debounceDelay], ?_⟩
    have h2 : n % 2 = 0 ∨ n % 2 = 1 := by omega
    rcases h2 with h | h
    · have ha : (n + 1) % 2 = 1 := by omega
      simp [c10AltSamples, h, ha]
    · have ha : (n + 1) % 2 = 0 := by omega
      simp [c10AltSamples, h, ha]

/-! ## Claim C1: mutual exclusion of the coil outputs -/

/-- Structural invariant: each trigger output mirrors its active flag, and the
two active flags are never both set. -/
def InvC1 (s : State) : Prop :=
  s.trigger0 = s.coil0Active ∧ s.trigger1 = s.coil1Active ∧
    ¬(s.coil0Active = true ∧ s.coil1Active = true)

theorem invC1_holdOff (i : Inputs) (s : State) (h : InvC1 s) : InvC1 (holdOffStep i s) := by
  simpa [InvC1] using h

theorem invC1_watchdog (i : Inputs) (s : State) (h : InvC1 s) : InvC1 (watchdogStep i s) := by
  unfold InvC1 at h ⊢
  rw [watchdogStep_trigger0, watchdogStep_trigger1, watchdogStep_coil0Active,
    watchdogStep_coil1Active]
  split_ifs
  · simp
  · exact h

theorem invC1_led (s : State) (h : InvC1 s) : InvC1 (ledStep s) := by
  simpa [InvC1] using h

theorem invC1_hall1 (i : Inputs) (s : State) (h : InvC1 s) : InvC1 (hall1Step i s) := by
  simpa [InvC1] using h

theorem invC1_hall2 (i : Inputs) (s : State) (h : InvC1 s) : InvC1 (hall2Step i s) := by
  simpa [InvC1] using h

theorem invC1_velocity (s : State) (h : InvC1 s) : InvC1 (velocityStep s) := by
  simpa [InvC1] using h

theorem invC1_rearm (i : Inputs) (s : State) (h : InvC1 s) : InvC1 (rearmStep i s) := by
  simpa [InvC1] using h

theorem invC1_fire0 (i : Inputs) (s : State) (h : InvC1 s) : InvC1 (fireCoil0Step i s) := by
  unfold InvC1 at h ⊢
  rw [fireCoil0Step_trigger0, fireCoil0Step_coil0Active, fireCoil0Step_trigger1,
    fireCoil0Step_coil1Active]
  by_cases hg : fire0Cond i s
  · simp only [if_pos hg]
    refine ⟨by simp, h.2.1, ?_⟩
    simp [hg.2.2.1]
  · simp only [if_neg hg]
    exact h

theorem invC1_fire1 (i : Inputs) (s : State) (h : InvC1 s) : InvC1 (fireCoil1Step i s) := by
  unfold InvC1 at h ⊢
  rw [fireCoil1Step_trigger0, fireCoil1Step_coil0Active, fireCoil1Step_trigger1,
    fireCoil1Step_coil1Active]
  by_cases hg : fire1Cond i s
  · simp only [if_pos hg]
    refine ⟨by simp, by simp, by simp⟩
  · simp only [if_neg hg]
    exact h

theorem invC1_pulse0 (i : Inputs) (s : State) (h : InvC1 s) : InvC1 (pulse0Step i s) := by
  unfold InvC1 at h ⊢
  rw [pulse0Step_trigger0, pulse0Step_coil0Active, pulse0Step_trigger1, pulse0Step_coil1Active]
  by_cases hg : pulse0Cond i s
  · simp only [if_pos hg]
    refine ⟨by simp, h.2.1, by simp⟩
  · simp only [if_neg hg]
    exact h

theorem invC1_pulse1 (i : Inputs) (s : State) (h : InvC1 s) : InvC1 (pulse1Step i s) := by
  unfold InvC1 at h ⊢
  rw [pulse1Step_trigger0, pulse1Step_coil0Active, pulse1Step_trigger1, pulse1Step_coil1Active]
  by_cases hg : pulse1Cond i s
  · simp only [if_pos hg]
    refine ⟨h.1, by simp, by simp⟩
  · simp only [if_neg hg]
    exact h

theorem invC1_preFire1 (i : Inputs) (s : State) (h : InvC1 s) : InvC1 (preFire1 i s) := by
  unfold preFire1
  exact invC1_fire0 i _ (invC1_rearm i _ (invC1_velocity _ (invC1_hall2 i _
    (invC1_hall1 i _ (invC1_led _ (invC1_watchdog i _ (invC1_holdOff i s h)))))))

theorem invC1_loopStep (i : Inputs) (s : State) (h : InvC1 s) : InvC1 (loopStep i s) := by
  unfold loopStep
  exact invC1_pulse1 i _ (invC1_pulse0 i _ (invC1_fire1 i _ (invC1_preFire1 i s h)))

theorem invC1_reachable (s : State) (h : Reachable s) : InvC1 s := by
  induction h with
  | init => exact ⟨rfl, rfl, by simp [initState]⟩
  | step i hr ih => exact invC1_loopStep i _ ih

/-- Claim C1: in every reachable state the two coil active flags are never
both set and the two trigger output lines are never both energized; moreover,
whenever the coil-1 firing transition is taken, the intermediate state that
holds during the blocking `delay(holdOffDelay)` (that is, after
`fireCoil1Pre`, before `fireCoil1Post`) already has the coil-0 output
deactivated and its flag cleared, while coil 1 is not yet energized. -/
theorem c1_mutual_exclusion (s : State) (h : Reachable s) :
    (¬(s.coil0Active = true ∧ s.coil1Active = true) ∧
     ¬(s.trigger0 = true ∧ s.trigger1 = true)) ∧
    (∀ i : Inputs, fire1Cond i (preFire1 i s) →
      (fireCoil1Pre (preFire1 i s)).trigger0 = false ∧
      (fireCoil1Pre (preFire1 i s)).coil0Active = false ∧
      (fireCoil1Pre (preFire1 i s)).trigger1 = false) := by
  have hI : InvC1 s := invC1_reachable s h
  constructor
  · refine ⟨hI.2.2, ?_⟩
    intro hT
    obtain ⟨h0, h1⟩ := hT
    rw [hI.1] at h0
    rw [hI.2.1] at h1
    exact hI.2.2 ⟨h0, h1⟩
  · intro i hg
    have hIpre : InvC1 (preFire1 i s) := invC1_preFire1 i s hI
    refine ⟨rfl, rfl, ?_⟩
    have ht : (fireCoil1Pre (preFire1 i s)).trigger1 = (preFire1 i s).trigger1 := rfl
    rw [ht, hIpre.2.1]
    exact hg.2.1

theorem c1_mutual_exclusion_witness :
    (¬(initState.coil0Active = true ∧ initState.coil1Active = true) ∧
     ¬(initState.trigger0 = true ∧ initState.trigger1 = true)) ∧
    (∀ i : Inputs, fire1Cond i (preFire1 i initState) →
      (fireCoil1Pre (preFire1 i initState)).trigger0 = false ∧
      (fireCoil1Pre (preFire1 i initState)).coil0Active = false ∧
      (fireCoil1Pre (preFire1 i initState)).trigger1 = false) :=
  c1_mutual_exclusion initState Reachable.init

/-! ## Timed traces

For the re-arm gate (claim C3) the clock readings matter.  `WFIter t i`
states that the readings of one iteration are well formed, given that the
previous iteration ended at clock value `t`: readings occur in program order
(the real clock is monotone), code without a blocking call advances the clock
by at most `driftBound` (750 ms, generous for a few serial prints at 9600
baud), the two (possibly blocking, unbounded-looking) `checkSwitch` calls
between the `millis()` read at line 152 and the one at line 168 take at most
`switchBound` (2^30 ms ≈ 12 days) each, and `delay(holdOffDelay)` takes at
most 102 ms plus drift.  These are physical assumptions about the platform,
not facts of the program text. -/

/-- Clock drift bound for non-blocking code sections (ms). -/
def driftBound : Nat := 750

/-- Upper bound on one blocking `checkSwitch` call (ms). -/
def switchBound : Nat := 1073741824

/-- Well-formed clock readings for one iteration starting no earlier than
`t`. -/
def WFIter (t : Nat) (i : Inputs) : Prop :=
  t ≤ i.tWd ∧ i.tWd ≤ t + driftBound ∧
  i.tWd ≤ i.tHall1 ∧ i.tHall1 ≤ i.tWd + driftBound ∧
  i.tHall1 ≤ i.tHall2 ∧ i.tHall2 ≤ i.tHall1 + driftBound ∧
  i.tHall2 ≤ i.tRearm ∧ i.tRearm ≤ i.tHall2 + driftBound ∧
  i.tRearm ≤ i.tFire0 ∧ i.tFire0 ≤ i.tRearm + (driftBound + 2 * switchBound) ∧
  i.tFire0 ≤ i.tFire1 ∧ i.tFire1 ≤ i.tFire0 + (driftBound + 102) ∧
  i.tFire1 ≤ i.tPulse0 ∧ i.tPulse0 ≤ i.tFire1 + driftBound ∧
  i.tPulse0 ≤ i.tPulse1 ∧ i.tPulse1 ≤ i.tPulse0 + driftBound

instance (t : Nat) (i : Inputs) : Decidable (WFIter t i) := by
  unfold WFIter; infer_instance

/-- States reachable from startup through iterations with well-formed clock
readings; the second component is the clock value of the last reading. -/
inductive ReachableWF : State → Nat → Prop
  | init : ReachableWF initState 0
  | step : ∀ {s : State} {t : Nat} (i : Inputs),
      ReachableWF s t → WFIter t i → ReachableWF (loopStep i s) i.tPulse1

/-! ### Stage decomposition and characterizations used for claim C3 -/

/-- State after the watchdog (line 101). -/
def wdStage (i : Inputs) (s : State) : State := watchdogStep i (holdOffStep i s)

/-- State after the hall-sensor latches (line 129). -/
def hallStage (i : Inputs) (s : State) : State :=
  hall2Step i (hall1Step i (ledStep (wdStage i s)))

/-- State after the velocity block (line 149). -/
def velStage (i : Inputs) (s : State) : State := velocityStep (hallStage i s)

/-- State after the re-arm gate (line 157). -/
def rearmStage (i : Inputs) (s : State) : State := rearmStep i (velStage i s)

theorem preFire1_eq_stage (i : Inputs) (s : State) :
    preFire1 i s = fireCoil0Step i (rearmStage i s) := rfl

theorem loopStep_eq_stage (i : Inputs) (s : State) :
    loopStep i s = pulse1Step i (pulse0Step i (fireCoil1Step i (preFire1 i s))) := rfl

/-- The watchdog trip condition of the iteration, on the entering state. -/
def wdCond (i : Inputs) (s : State) : Prop :=
  s.launched = true ∧ FAIL_SAFE_LIMIT < msub i.tWd s.coil0TriggerTime

instance (i : Inputs) (s : State) : Decidable (wdCond i s) := by
  unfold wdCond; infer_instance

/-- The re-arm condition of the iteration, on the entering state (the
coil-0 trigger time is not modified before line 152). -/
def rearmCond (i : Inputs) (s : State) : Prop :=
  REARM_DELAY < msub i.tRearm s.coil0TriggerTime ∧ i.swRearm = true

instance (i : Inputs) (s : State) : Decidable (rearmCond i s) := by
  unfold rearmCond; infer_instance

section StageLemmas

variable (i : Inputs) (s : State)

@[simp] theorem wdStage_coil0TriggerTime : (wdStage i s).coil0TriggerTime = s.coil0TriggerTime := by
  unfold wdStage; simp
@[simp] theorem wdStage_coil1TriggerTime : (wdStage i s).coil1TriggerTime = s.coil1TriggerTime := by
  unfold wdStage; simp
@[simp] theorem wdStage_readyToLaunch : (wdStage i s).readyToLaunch = s.readyToLaunch := by
  unfold wdStage; simp

theorem wdStage_launched : (wdStage i s).launched =
    if wdCond i s then false else s.launched := by
  unfold wdStage wdCond
  rw [watchdogStep_launched]
  simp

theorem wdStage_coil0Active : (wdStage i s).coil0Active =
    if wdCond i s then false else s.coil0Active := by
  unfold wdStage wdCond
  rw [watchdogStep_coil0Active]
  simp

theorem wdStage_coil1Active : (wdStage i s).coil1Active =
    if wdCond i s then false else s.coil1Active := by
  unfold wdStage wdCond
  rw [watchdogStep_coil1Active]
  simp

@[simp] theorem hallStage_coil0TriggerTime : (hallStage i s).coil0TriggerTime = s.coil0TriggerTime := by
  unfold hallStage; simp
@[simp] theorem hallStage_coil1TriggerTime : (hallStage i s).coil1TriggerTime = s.coil1TriggerTime := by
  unfold hallStage; simp
@[simp] theorem hallStage_readyToLaunch : (hallStage i s).readyToLaunch = s.readyToLaunch := by
  unfold hallStage; simp
@[simp] theorem hallStage_launched : (hallStage i s).launched = (wdStage i s).launched := by
  unfold hallStage; simp
@[simp] theorem hallStage_coil0Active : (hallStage i s).coil0Active = (wdStage i s).coil0Active := by
  unfold hallStage; simp
@[simp] theorem hallStage_coil1Active : (hallStage i s).coil1Active = (wdStage i s).coil1Active := by
  unfold hallStage; simp

@[simp] theorem velStage_coil0TriggerTime : (velStage i s).coil0TriggerTime = s.coil0TriggerTime := by
  unfold velStage; simp
@[simp] theorem velStage_coil1TriggerTime : (velStage i s).coil1TriggerTime = s.coil1TriggerTime := by
  unfold velStage; simp
@[simp] theorem velStage_readyToLaunch : (velStage i s).readyToLaunch = s.readyToLaunch := by
  unfold velStage; simp
@[simp] theorem velStage_coil0Active : (velStage i s).coil0Active = (wdStage i s).coil0Active := by
  unfold velStage; simp
@[simp] theorem velStage_coil1Active : (velStage i s).coil1Active = (wdStage i s).coil1Active := by
  unfold velStage; simp

/-- The velocity block can only clear `launched`, never set it. -/
theorem velStage_launched_mono (h : (velStage i s).launched = true) :
    (wdStage i s).launched = true := by
  unfold velStage at h
  rw [velocityStep_launched] at h
  by_cases hc : (hallStage i s).hall1Tripped = true ∧ (hallStage i s).hall2Tripped = true
  · rw [if_pos hc] at h
    exact absurd h (by simp)
  · rw [if_neg hc] at h
    rw [← hallStage_launched i s]
    exact h

@[simp] theorem rearmStage_coil0TriggerTime : (rearmStage i s).coil0TriggerTime = s.coil0TriggerTime := by
  unfold rearmStage; simp
@[simp] theorem rearmStage_coil1TriggerTime : (rearmStage i s).coil1TriggerTime = s.coil1TriggerTime := by
  unfold rearmStage; simp
@[simp] theorem rearmStage_launched : (rearmStage i s).launched = (velStage i s).launched := by
  unfold rearmStage; simp
@[simp] theorem rearmStage_coil0Active : (rearmStage i s).coil0Active = (wdStage i s).coil0Active := by
  unfold rearmStage; simp
@[simp] theorem rearmStage_coil1Active : (rearmStage i s).coil1Active = (wdStage i s).coil1Active := by
  unfold rearmStage; simp

theorem rearmStage_readyToLaunch : (rearmStage i s).readyToLaunch =
    if rearmCond i s then true else s.readyToLaunch := by
  unfold rearmStage rearmCond
  rw [rearmStep_readyToLaunch]
  simp

end StageLemmas

/-! ### Arithmetic helper lemmas for wrap-around comparisons -/

theorem le_of_msub_le {a b k d : Nat} (hba : b ≤ a) (had : a ≤ b + d) (hd : d < M32)
    (h : msub a b ≤ k) : a ≤ b + k := by
  rw [msub_eq_sub hba (by omega)] at h
  omega

theorem msub_le_of_le {a b k : Nat} (hba : b ≤ a) (h : a ≤ b + k) (hk : k < M32) :
    msub a b ≤ k := by
  rw [msub_eq_sub hba (by omega)]
  omega

/-! ### The timed invariant

`InvT t s` holds of every `ReachableWF` state `s` with last clock value `t`:
trigger times never exceed the clock; an active coil's trigger is at most
`pulseWidth` (+ one drift for coil 0) in the past, else pulse expiry would
have cleared it; a launched state is at most one fail-safe window plus one
iteration span past its trigger, else the watchdog would have cleared it;
`readyToLaunch` and `launched` are mutually exclusive; and a coil-1 that
outlives `launched` was fired within the fail-safe window. -/
def InvT (t : Nat) (s : State) : Prop :=
  s.coil0TriggerTime ≤ t ∧
  s.coil1TriggerTime ≤ t ∧
  (s.coil0Active = true → t ≤ s.coil0TriggerTime + 780) ∧
  (s.coil1Active = true → t ≤ s.coil1TriggerTime + 30) ∧
  (s.coil1Active = true → s.coil0TriggerTime ≤ s.coil1TriggerTime) ∧
  (s.launched = true → t ≤ s.coil0TriggerTime + 2147490000) ∧
  ¬(s.readyToLaunch = true ∧ s.launched = true) ∧
  (s.coil1Active = true → s.launched = false → s.coil1TriggerTime ≤ s.coil0TriggerTime + 1000)

/-- If `launched` is still set after the velocity block, it was set at entry
and the watchdog condition did not hold. -/
theorem launched_survives (i : Inputs) (s : State)
    (hv : (velStage i s).launched = true) :
    s.launched = true ∧ ¬(FAIL_SAFE_LIMIT < msub i.tWd s.coil0TriggerTime) := by
  have hw := velStage_launched_mono i s hv
  rw [wdStage_launched] at hw
  by_cases hc : wdCond i s
  · rw [if_pos hc] at hw
    exact absurd hw (by simp)
  · rw [if_neg hc] at hw
    exact ⟨hw, fun hgt => hc ⟨hw, hgt⟩⟩

/-- No-wrap conversion of a silent watchdog: under the launched-time bound,
the computed elapsed value is the real one, so the watchdog clock is within
the fail-safe window of the trigger. -/
theorem wd_real_bound {i : Inputs} {s : State} {t : Nat}
    (hc0 : s.coil0TriggerTime ≤ t)
    (hf : t ≤ s.coil0TriggerTime + 2147490000)
    (hw1 : t ≤ i.tWd) (hw2 : i.tWd ≤ t + driftBound)
    (hng : ¬(FAIL_SAFE_LIMIT < msub i.tWd s.coil0TriggerTime)) :
    i.tWd ≤ s.coil0TriggerTime + 1000 := by
  simp only [driftBound] at hw2
  have hmle : msub i.tWd s.coil0TriggerTime ≤ 1000 := by
    simpa [FAIL_SAFE_LIMIT] using Nat.not_lt.mp hng
  exact le_of_msub_le (by omega)
    (show i.tWd ≤ s.coil0TriggerTime + 2147490750 by omega)
    (by norm_num [M32]) hmle

/-- If the watchdog clock is within the fail-safe window, the re-arm gate
cannot see more than the cool-down elapsed. -/
theorem rearm_silent {i : Inputs} {s : State}
    (hwd : i.tWd ≤ s.coil0TriggerTime + 1000)
    (hch : s.coil0TriggerTime ≤ i.tWd)
    (hwr : i.tWd ≤ i.tRearm)
    (hrg : i.tRearm ≤ i.tWd + 2250) : ¬ rearmCond i s := by
  intro hrc
  have h3 : msub i.tRearm s.coil0TriggerTime ≤ 3250 :=
    msub_le_of_le (by omega) (by omega) (by norm_num [M32])
  have h4 := hrc.1
  simp only [REARM_DELAY] at h4
  omega

theorem invT_init : InvT 0 initState := by
  refine ⟨Nat.le_refl 0, Nat.le_refl 0, ?_, ?_, ?_, ?_, ?_, ?_⟩ <;> simp [initState]

theorem invT_step (i : Inputs) (s : State) (t : Nat)
    (hI : InvT t s) (hwf : WFIter t i) : InvT i.tPulse1 (loopStep i s) := by
  obtain ⟨hC0, hC1, hD, hE, hE2, hF, hG, hH⟩ := hI
  obtain ⟨w1, w2, w3, w4, w5, w6, w7, w8, w9, w10, w11, w12, w13, w14, w15, w16⟩ := hwf
  have hw2d : i.tWd ≤ t + driftBound := w2
  simp only [driftBound, switchBound] at w2 w4 w6 w8 w10 w12 w14 w16
  have hT0fin : (loopStep i s).coil0TriggerTime = (preFire1 i s).coil0TriggerTime := by
    rw [loopStep_eq_stage]; simp
  have hT1fin : (loopStep i s).coil1TriggerTime =
      (fireCoil1Step i (preFire1 i s)).coil1TriggerTime := by
    rw [loopStep_eq_stage]; simp
  have hLfin : (loopStep i s).launched = (preFire1 i s).launched := by
    rw [loopStep_eq_stage]; simp
  have hRfin : (loopStep i s).readyToLaunch = (preFire1 i s).readyToLaunch := by
    rw [loopStep_eq_stage]; simp
  have hpreT0 : (preFire1 i s).coil0TriggerTime =
      if fire0Cond i (rearmStage i s) then i.tFire0 else s.coil0TriggerTime := by
    rw [preFire1_eq_stage, fireCoil0Step_coil0TriggerTime, rearmStage_coil0TriggerTime]
  have hpreT1 : (preFire1 i s).coil1TriggerTime = s.coil1TriggerTime := by
    rw [preFire1_eq_stage]; simp
  have hpreL : (preFire1 i s).launched =
      if fire0Cond i (rearmStage i s) then true else (velStage i s).launched := by
    rw [preFire1_eq_stage, fireCoil0Step_launched, rearmStage_launched]
  have hpreR : (preFire1 i s).readyToLaunch =
      if fire0Cond i (rearmStage i s) then false else (rearmStage i s).readyToLaunch := by
    rw [preFire1_eq_stage, fireCoil0Step_readyToLaunch]
  have hpreC0 : (preFire1 i s).coil0Active =
      if fire0Cond i (rearmStage i s) then true else (wdStage i s).coil0Active := by
    rw [preFire1_eq_stage, fireCoil0Step_coil0Active, rearmStage_coil0Active]
  have hpreC1 : (preFire1 i s).coil1Active = (wdStage i s).coil1Active := by
    rw [preFire1_eq_stage]; simp
  refine ⟨?_, ?_, ?_, ?_, ?_, ?_, ?_, ?_⟩
  -- 1: coil0TriggerTime ≤ tPulse1
  · rw [hT0fin, hpreT0]
    split_ifs
    · omega
    · omega
  -- 2: coil1TriggerTime ≤ tPulse1
  · rw [hT1fin, fireCoil1Step_coil1TriggerTime, hpreT1]
    split_ifs
    · omega
    · omega
  -- 3: D for coil 0
  · intro hc0
    rw [loopStep_eq_stage, pulse1Step_coil0Active, pulse0Step_coil0Active] at hc0
    by_cases hP0 : pulse0Cond i (fireCoil1Step i (preFire1 i s))
    · rw [if_pos hP0] at hc0
      exact absurd hc0 (by simp)
    · rw [if_neg hP0] at hc0
      have hms : msub i.tPulse0 (fireCoil1Step i (preFire1 i s)).coil0TriggerTime ≤ pulseWidth := by
        by_contra hgt
        exact hP0 ⟨hc0, Nat.not_le.mp hgt⟩
      rw [fireCoil1Step_coil0TriggerTime, hpreT0] at hms
      rw [hT0fin, hpreT0]
      by_cases hF0 : fire0Cond i (rearmStage i s)
      · rw [if_pos hF0] at hms ⊢
        have hle := le_of_msub_le (b := i.tFire0) (a := i.tPulse0) (by omega)
          (show i.tPulse0 ≤ i.tFire0 + 1602 by omega) (by norm_num [M32]) hms
        simp only [pulseWidth] at hle
        omega
      · rw [if_neg hF0] at hms ⊢
        rw [fireCoil1Step_coil0Active] at hc0
        by_cases hF1 : fire1Cond i (preFire1 i s)
        · rw [if_pos hF1] at hc0
          exact absurd hc0 (by simp)
        · rw [if_neg hF1, hpreC0, if_neg hF0, wdStage_coil0Active] at hc0
          by_cases hw : wdCond i s
          · rw [if_pos hw] at hc0
            exact absurd hc0 (by simp)
          · rw [if_neg hw] at hc0
            have hDt := hD hc0
            have hle := le_of_msub_le (b := s.coil0TriggerTime) (a := i.tPulse0) (by omega)
              (show i.tPulse0 ≤ s.coil0TriggerTime + 2147489780 by omega)
              (by norm_num [M32]) hms
            simp only [pulseWidth] at hle
            omega
  -- 4: E for coil 1
  · intro hc1
    rw [loopStep_eq_stage, pulse1Step_coil1Active] at hc1
    by_cases hP1 : pulse1Cond i (pulse0Step i (fireCoil1Step i (preFire1 i s)))
    · rw [if_pos hP1] at hc1
      exact absurd hc1 (by simp)
    · rw [if_neg hP1, pulse0Step_coil1Active] at hc1
      have hms : msub i.tPulse1
          (pulse0Step i (fireCoil1Step i (preFire1 i s))).coil1TriggerTime ≤ pulseWidth := by
        by_contra hgt
        refine hP1 ⟨?_, Nat.not_le.mp hgt⟩
        rw [pulse0Step_coil1Active]
        exact hc1
      rw [pulse0Step_coil1TriggerTime, fireCoil1Step_coil1TriggerTime] at hms
      rw [hT1fin, fireCoil1Step_coil1TriggerTime]
      by_cases hF1 : fire1Cond i (preFire1 i s)
      · rw [if_pos hF1] at hms ⊢
        have hle := le_of_msub_le (b := i.tFire1) (a := i.tPulse1) (by omega)
          (show i.tPulse1 ≤ i.tFire1 + 1500 by omega) (by norm_num [M32]) hms
        simp only [pulseWidth] at hle
        omega
      · rw [if_neg hF1, hpreT1] at hms ⊢
        rw [fireCoil1Step_coil1Active, if_neg hF1, hpreC1, wdStage_coil1Active] at hc1
        by_cases hw : wdCond i s
        · rw [if_pos hw] at hc1
          exact absurd hc1 (by simp)
        · rw [if_neg hw] at hc1
          have hEt := hE hc1
          have hle := le_of_msub_le (b := s.coil1TriggerTime) (a := i.tPulse1) (by omega)
            (show i.tPulse1 ≤ s.coil1TriggerTime + 2147489780 by omega)
            (by norm_num [M32]) hms
          simp only [pulseWidth] at hle
          omega
  -- 5: coil-1 trigger after coil-0 trigger
  · intro hc1
    rw [loopStep_eq_stage, pulse1Step_coil1Active] at hc1
    by_cases hP1 : pulse1Cond i (pulse0Step i (fireCoil1Step i (preFire1 i s)))
    · rw [if_pos hP1] at hc1
      exact absurd hc1 (by simp)
    · rw [if_neg hP1, pulse0Step_coil1Active] at hc1
      rw [hT0fin, hpreT0, hT1fin, fireCoil1Step_coil1TriggerTime]
      by_cases hF1 : fire1Cond i (preFire1 i s)
      · rw [if_pos hF1]
        split_ifs
        · omega
        · omega
      · rw [if_neg hF1, hpreT1]
        rw [fireCoil1Step_coil1Active, if_neg hF1, hpreC1, wdStage_coil1Active] at hc1
        by_cases hw : wdCond i s
        · rw [if_pos hw] at hc1
          exact absurd hc1 (by simp)
        · rw [if_neg hw] at hc1
          have hF0 : ¬ fire0Cond i (rearmStage i s) := by
            intro hf
            have h2 := hf.2.2.1
            rw [rearmStage_coil1Active, wdStage_coil1Active, if_neg hw, hc1] at h2
            exact absurd h2 (by simp)
          rw [if_neg hF0]
          exact hE2 hc1
  -- 6: launched-time bound
  · intro hl
    rw [hLfin, hpreL] at hl
    rw [hT0fin, hpreT0]
    by_cases hF0 : fire0Cond i (rearmStage i s)
    · rw [if_pos hF0]
      omega
    · rw [if_neg hF0] at hl
      rw [if_neg hF0]
      obtain ⟨hsl, hng⟩ := launched_survives i s hl
      have h1 := wd_real_bound hC0 (hF hsl) w1 hw2d hng
      omega
  -- 7: ready and launched mutually exclusive
  · rintro ⟨hr, hl⟩
    rw [hRfin, hpreR] at hr
    rw [hLfin, hpreL] at hl
    by_cases hF0 : fire0Cond i (rearmStage i s)
    · rw [if_pos hF0] at hr
      exact absurd hr (by simp)
    · rw [if_neg hF0] at hr hl
      obtain ⟨hsl, hng⟩ := launched_survives i s hl
      have h1 := wd_real_bound hC0 (hF hsl) w1 hw2d hng
      rw [rearmStage_readyToLaunch] at hr
      by_cases hrc : rearmCond i s
      · exact rearm_silent h1 (by omega) (by omega) (by omega) hrc
      · rw [if_neg hrc] at hr
        exact hG ⟨hr, hsl⟩
  -- 8: coil 1 alive while launched cleared was fired inside the window
  · intro hc1 hl
    rw [hLfin] at hl
    rw [loopStep_eq_stage, pulse1Step_coil1Active] at hc1
    by_cases hP1 : pulse1Cond i (pulse0Step i (fireCoil1Step i (preFire1 i s)))
    · rw [if_pos hP1] at hc1
      exact absurd hc1 (by simp)
    · rw [if_neg hP1, pulse0Step_coil1Active] at hc1
      rw [hT1fin, fireCoil1Step_coil1TriggerTime, hT0fin, hpreT0]
      by_cases hF1 : fire1Cond i (preFire1 i s)
      · exact absurd hF1.1 (by simp [hl])
      · rw [if_neg hF1, hpreT1]
        rw [fireCoil1Step_coil1Active, if_neg hF1, hpreC1, wdStage_coil1Active] at hc1
        by_cases hw : wdCond i s
        · rw [if_pos hw] at hc1
          exact absurd hc1 (by simp)
        · rw [if_neg hw] at hc1
          have hF0 : ¬ fire0Cond i (rearmStage i s) := by
            intro hf
            have h2 := hf.2.2.1
            rw [rearmStage_coil1Active, wdStage_coil1Active, if_neg hw, hc1] at h2
            exact absurd h2 (by simp)
          rw [if_neg hF0]
          by_cases hsl : s.launched = true
          · have hng : ¬(FAIL_SAFE_LIMIT < msub i.tWd s.coil0TriggerTime) :=
              fun hgt => hw ⟨hsl, hgt⟩
            have h1 := wd_real_bound hC0 (hF hsl) w1 hw2d hng
            omega
          · have hslf : s.launched = false := by simpa using hsl
            exact hH hc1 hslf

theorem invT_reachableWF (s : State) (t : Nat) (h : ReachableWF s t) : InvT t s := by
  induction h with
  | init => exact invT_init
  | step i hr hwf ih => exact invT_step i _ _ ih hwf

/-! ## Claim C3: the re-arm gate -/

/-- Claim C3: along timed traces with well-formed clock readings,
`readyToLaunch` turns from false to true in an iteration only if that
iteration's re-arm check passed — elapsed time since the last coil-0 trigger
above `REARM_DELAY` and the debounced launch-switch reading released — and
the resulting state has both coil active flags clear. -/
theorem c3_rearm_gate (s : State) (t : Nat) (i : Inputs)
    (hr : ReachableWF s t) (hwf : WFIter t i)
    (h0 : s.readyToLaunch = false)
    (h1 : (loopStep i s).readyToLaunch = true) :
    (REARM_DELAY < msub i.tRearm s.coil0TriggerTime ∧ i.swRearm = true) ∧
    (loopStep i s).coil0Active = false ∧
    (loopStep i s).coil1Active = false := by
  obtain ⟨hC0, hC1, hD, hE, hE2, hF, hG, hH⟩ := invT_reachableWF s t hr
  obtain ⟨w1, w2, w3, w4, w5, w6, w7, w8, w9, w10, w11, w12, w13, w14, w15, w16⟩ := hwf
  have hw2d : i.tWd ≤ t + driftBound := w2
  simp only [driftBound, switchBound] at w2 w4 w6 w8 w10 w12 w14 w16
  have hRfin : (loopStep i s).readyToLaunch = (preFire1 i s).readyToLaunch := by
    rw [loopStep_eq_stage]; simp
  have hpreR : (preFire1 i s).readyToLaunch =
      if fire0Cond i (rearmStage i s) then false else (rearmStage i s).readyToLaunch := by
    rw [preFire1_eq_stage, fireCoil0Step_readyToLaunch]
  have hpreL : (preFire1 i s).launched =
      if fire0Cond i (rearmStage i s) then true else (velStage i s).launched := by
    rw [preFire1_eq_stage, fireCoil0Step_launched, rearmStage_launched]
  have hpreC0 : (preFire1 i s).coil0Active =
      if fire0Cond i (rearmStage i s) then true else (wdStage i s).coil0Active := by
    rw [preFire1_eq_stage, fireCoil0Step_coil0Active, rearmStage_coil0Active]
  have hpreC1 : (preFire1 i s).coil1Active = (wdStage i s).coil1Active := by
    rw [preFire1_eq_stage]; simp
  rw [hRfin, hpreR] at h1
  have hF0 : ¬ fire0Cond i (rearmStage i s) := by
    intro hf
    rw [if_pos hf] at h1
    exact absurd h1 (by simp)
  rw [if_neg hF0, rearmStage_readyToLaunch] at h1
  have hrc : rearmCond i s := by
    by_contra hnc
    rw [if_neg hnc, h0] at h1
    exact absurd h1 (by simp)
  have hLv : (velStage i s).launched = false := by
    by_cases hv : (velStage i s).launched = true
    · exfalso
      obtain ⟨hsl, hng⟩ := launched_survives i s hv
      have h1w := wd_real_bound hC0 (hF hsl) w1 hw2d hng
      exact rearm_silent h1w (by omega) (by omega) (by omega) hrc
    · simpa using hv
  refine ⟨hrc, ?_, ?_⟩
  · rw [loopStep_eq_stage, pulse1Step_coil0Active, pulse0Step_coil0Active]
    by_cases hP0 : pulse0Cond i (fireCoil1Step i (preFire1 i s))
    · rw [if_pos hP0]
    · rw [if_neg hP0, fireCoil1Step_coil0Active]
      by_cases hF1 : fire1Cond i (preFire1 i s)
      · rw [if_pos hF1]
      · rw [if_neg hF1, hpreC0, if_neg hF0, wdStage_coil0Active]
        by_cases hw : wdCond i s
        · rw [if_pos hw]
        · rw [if_neg hw]
          by_cases hc0s : s.coil0Active = true
          · exfalso
            have hDt := hD hc0s
            have h3 : msub i.tRearm s.coil0TriggerTime ≤ 3780 :=
              msub_le_of_le (by omega) (by omega) (by norm_num [M32])
            have h4 := hrc.1
            simp only [REARM_DELAY] at h4
            omega
          · simpa using hc0s
  · rw [loopStep_eq_stage, pulse1Step_coil1Active]
    by_cases hP1 : pulse1Cond i (pulse0Step i (fireCoil1Step i (preFire1 i s)))
    · rw [if_pos hP1]
    · rw [if_neg hP1, pulse0Step_coil1Active, fireCoil1Step_coil1Active]
      by_cases hF1 : fire1Cond i (preFire1 i s)
      · exfalso
        have hp := hF1.1
        rw [hpreL, if_neg hF0, hLv] at hp
        exact absurd hp (by simp)
      · rw [if_neg hF1, hpreC1, wdStage_coil1Active]
        by_cases hw : wdCond i s
        · rw [if_pos hw]
        · rw [if_neg hw]
          by_cases hc1s : s.coil1Active = true
          · exfalso
            by_cases hsl : s.launched = true
            · have hng : ¬(FAIL_SAFE_LIMIT < msub i.tWd s.coil0TriggerTime) :=
                fun hgt => hw ⟨hsl, hgt⟩
              have h1w := wd_real_bound hC0 (hF hsl) w1 hw2d hng
              exact rearm_silent h1w (by omega) (by omega) (by omega) hrc
            · have hslf : s.launched = false := by simpa using hsl
              have hHt := hH hc1s hslf
              have hEt := hE hc1s
              have hE2t := hE2 hc1s
              have h3 : msub i.tRearm s.coil0TriggerTime ≤ 4030 :=
                msub_le_of_le (by omega) (by omega) (by norm_num [M32])
              have h4 := hrc.1
              simp only [REARM_DELAY] at h4
              omega
          · simpa using hc1s

/-- C3 witness trace, step 1: fire coil 0 at instant 10. -/
def c3Fire : Inputs :=
  { analog := 0, tWd := 0, hall1a := 1, tHall1 := 0, hall2a := 1, tHall2 := 0,
    tRearm := 0, swRearm := true, hall1b := 1, hall2b := 1, swFire := false,
    tFire0 := 10, hall1c := 1, tFire1 := 10, tPulse0 := 10, tPulse1 := 10 }

/-- C3 witness trace: an idle iteration with all readings at instant `T`
(sled absent, launch switch released). -/
def c3Idle (T : Nat) : Inputs :=
  { analog := 0, tWd := T, hall1a := 1, tHall1 := T, hall2a := 1, tHall2 := T,
    tRearm := T, swRearm := true, hall1b := 1, hall2b := 1, swFire := true,
    tFire0 := T, hall1c := 1, tFire1 := T, tPulse0 := T, tPulse1 := T }

def c3s1 : State := loopStep c3Fire initState
def c3s2 : State := loopStep (c3Idle 760) c3s1
def c3s3 : State := loopStep (c3Idle 1510) c3s2
def c3s4 : State := loopStep (c3Idle 2260) c3s3
def c3s5 : State := loopStep (c3Idle 3010) c3s4
def c3s6 : State := loopStep (c3Idle 3760) c3s5
def c3s7 : State := loopStep (c3Idle 4510) c3s6

set_option maxRecDepth 100000 in
theorem c3_rearm_gate_witness :
    c3s7.readyToLaunch = false ∧
    (loopStep (c3Idle 5260) c3s7).readyToLaunch = true ∧
    ((REARM_DELAY < msub (c3Idle 5260).tRearm c3s7.coil0TriggerTime ∧
      (c3Idle 5260).swRearm = true) ∧
     (loopStep (c3Idle 5260) c3s7).coil0Active = false ∧
     (loopStep (c3Idle 5260) c3s7).coil1Active = false) := by
  have hreach : ReachableWF c3s7 4510 :=
    ReachableWF.step (c3Idle 4510)
      (ReachableWF.step (c3Idle 3760)
        (ReachableWF.step (c3Idle 3010)
          (ReachableWF.step (c3Idle 2260)
            (ReachableWF.step (c3Idle 1510)
              (ReachableWF.step (c3Idle 760)
                (ReachableWF.step c3Fire ReachableWF.init (by decide))
                (by decide))
              (by decide))
            (by decide))
          (by decide))
        (by decide))
      (by decide)
  refine ⟨by decide, by decide, ?_⟩
  exact c3_rearm_gate c3s7 4510 (c3Idle 5260) hreach (by decide) (by decide) (by decide)

end CoilLauncher
